import Mathlib

/-!
# Starfall Shores: the application layer over the controller scheduler

A shallow embedding of `src/app/src/MyApp.cpp`, `src/app/src/MainController.cpp`
and `src/app/include/MainController.hpp`.

* `MyApp::app_setup` is a straight line of calls into the engine's controller
  registry; it is embedded as the sequence of those calls.
* `MainController` is embedded by explicit state passing over a `World`: the
  controller's own fields, the file-level globals of `MainController.cpp`, the
  camera fields the application writes, and the ordered log of calls that cross
  into the engine (platform, renderer, resources).
* `float`/`double` values are carried as rationals holding the decimal value
  written in the source; matrices are kept symbolic.
-/

namespace app

/-! ## Controller identities and `MyApp::app_setup` -/

/-- Identities of the controller types named in the application sources. -/
inductive ControllerId
  | EngineControllersEnd
  | MainController
  | GUIController
  | BloomController
  | GraphicsController
  | PlatformController
  | ResourcesController
  deriving DecidableEq, Repr

/-- One call made by `MyApp::app_setup` on the controller registry. -/
inductive SetupOp
  | register_controller (c : ControllerId)
  | after (self other : ControllerId)
  deriving DecidableEq, Repr

open ControllerId in
/-- The calls of `MyApp::app_setup` (MyApp.cpp lines 12 to 18), in program order. -/
def app_setup : List SetupOp :=
  [ SetupOp.register_controller MainController,
    SetupOp.register_controller GUIController,
    SetupOp.register_controller BloomController,
    SetupOp.after MainController EngineControllersEnd,
    SetupOp.after BloomController MainController,
    SetupOp.after GUIController MainController,
    SetupOp.after BloomController GUIController ]

/-- The controllers registered by a sequence of setup calls, in registration order. -/
def registered : List SetupOp → List ControllerId
  | [] => []
  | SetupOp.register_controller c :: ops => c :: registered ops
  | SetupOp.after _ _ :: ops => registered ops

/-- The after-edges `(A, B)` ("A executes after B") declared by a sequence of setup calls. -/
def after_edges : List SetupOp → List (ControllerId × ControllerId)
  | [] => []
  | SetupOp.register_controller _ :: ops => after_edges ops
  | SetupOp.after self other :: ops => (self, other) :: after_edges ops

/-- The after-relation declared by `MyApp::app_setup`. -/
def After (a b : ControllerId) : Prop := (a, b) ∈ after_edges app_setup

instance (a b : ControllerId) : Decidable (After a b) :=
  inferInstanceAs (Decidable ((a, b) ∈ after_edges app_setup))

/-- The four controllers the declared edges speak about. -/
def scheduled : List ControllerId :=
  [ ControllerId.EngineControllersEnd, ControllerId.MainController,
    ControllerId.GUIController, ControllerId.BloomController ]

/-- In `order`, controller `a` comes strictly before controller `b`. -/
def precedes (order : List ControllerId) (a b : ControllerId) : Prop :=
  order.indexOf a < order.indexOf b

instance (order : List ControllerId) (a b : ControllerId) : Decidable (precedes order a b) :=
  inferInstanceAs (Decidable (order.indexOf a < order.indexOf b))

/-- An execution order is consistent with an edge set when, for every edge `(A, B)`,
`A` appears after `B`. -/
def consistent (edges : List (ControllerId × ControllerId)) (order : List ControllerId) : Prop :=
  ∀ e ∈ edges, precedes order e.2 e.1

instance (edges : List (ControllerId × ControllerId)) (order : List ControllerId) :
    Decidable (consistent edges order) :=
  inferInstanceAs (Decidable (∀ e ∈ edges, precedes order e.2 e.1))

/-- An execution order of the four controllers: each of them exactly once. -/
def is_order (order : List ControllerId) : Prop := order.Perm scheduled

instance (order : List ControllerId) : Decidable (is_order order) :=
  inferInstanceAs (Decidable (order.Perm scheduled))

/-- The setup call declares an edge. -/
def SetupOp.is_after : SetupOp → Bool
  | SetupOp.after _ _ => true
  | SetupOp.register_controller _ => false

/-- Every `after` call of the sequence names two endpoints that are registered at the
moment of the call: each is in `known` (registered before the sequence starts) or is
registered by an earlier call of the sequence. -/
def endpoints_registered (known : List ControllerId) : List SetupOp → Bool
  | [] => true
  | SetupOp.register_controller c :: ops => endpoints_registered (c :: known) ops
  | SetupOp.after self other :: ops =>
    decide (self ∈ known) && decide (other ∈ known) && endpoints_registered known ops

/-- The order in which the declared edges place the four controllers. -/
def resolved_order : List ControllerId :=
  [ ControllerId.EngineControllersEnd, ControllerId.MainController,
    ControllerId.GUIController, ControllerId.BloomController ]

/-- Rank of a controller along the declared edges; every edge strictly lowers it. -/
def rank : ControllerId → Nat
  | ControllerId.EngineControllersEnd => 0
  | ControllerId.MainController => 1
  | ControllerId.GUIController => 2
  | ControllerId.BloomController => 3
  | _ => 0

/-! ## Values crossing the boundary to the engine -/

/-- A `float` or `double` value, carried as the exact decimal written in the source. -/
abbrev Scalar := ℚ

/-- Mirror of `glm::vec3`. -/
structure Vec3 where
  x : Scalar
  y : Scalar
  z : Scalar
  deriving DecidableEq, Repr

/-- The one-argument constructor `glm::vec3(s)`: all three components equal to `s`. -/
def vec3 (s : Scalar) : Vec3 := ⟨s, s, s⟩

/-- The fields of `engine::graphics::Camera` that the application reads or writes. -/
structure Camera where
  Position : Vec3
  Front : Vec3
  Yaw : Scalar
  Pitch : Scalar
  MovementSpeed : Scalar
  deriving DecidableEq, Repr

/-- Mirror of `engine::graphics::Camera::Movement`. -/
inductive Movement
  | FORWARD | BACKWARD | LEFT | RIGHT | UP | DOWN
  deriving DecidableEq, Repr

/-- A `glm::mat4`, kept symbolic: the identity `glm::mat4(1.0f)`, the three glm
builders as the source applies them (angles in degrees, as passed to `glm::radians`),
and the two matrices the application obtains from the engine. -/
inductive Mat4
  | identity
  | rotate (m : Mat4) (degrees : Scalar) (axis : Vec3)
  | translate (m : Mat4) (v : Vec3)
  | scale (m : Mat4) (v : Vec3)
  | projection_matrix
  | view_matrix (camera : Camera)
  deriving DecidableEq, Repr

/-- The keys `MainController` queries. -/
inductive KeyId
  | KEY_W | KEY_UP | KEY_S | KEY_DOWN | KEY_A | KEY_LEFT | KEY_D | KEY_RIGHT
  | KEY_SPACE | KEY_LEFT_SHIFT | KEY_P | KEY_N | KEY_Q | KEY_E | KEY_ESCAPE
  deriving DecidableEq, Repr

/-- Mirror of `engine::platform::Key::State`. -/
inductive KeyState
  | Released | JustPressed | Pressed | JustReleased
  deriving DecidableEq, Repr

/-- What the application observes of an `engine::platform::Key`: the results of
`state()` and of `is_down()`. The engine class is not part of the sources at hand, so
the two observations are kept independent: nothing is assumed about how they relate. -/
structure Key where
  state : KeyState
  is_down : Bool
  deriving DecidableEq, Repr

/-- The fields of `engine::platform::MousePosition` read by the observer. -/
structure MousePosition where
  dx : Scalar
  dy : Scalar
  deriving DecidableEq, Repr

/-- The platform event observers defined by the application. -/
inductive Observer
  | MainPlatformEventObserver
  deriving DecidableEq, Repr

/-- A call that crosses from the application into the engine and acts on it
(pure queries such as `get<T>()`, `key()`, `dt()`, `model()`, `shader()` are not logged).
Shaders, models and skyboxes are named by the string they are looked up with. -/
inductive Call
  | enable_depth_testing
  | clear_buffers
  | swap_buffers
  | bloom_setup
  | prepare_hdr
  | finalize_bloom
  | register_platform_event_observer (observer : Observer)
  | set_enable_cursor (enabled : Bool)
  | move_camera (direction : Movement) (dt : Scalar)
  | rotate_camera (dx dy : Scalar)
  | use (shader : String)
  | set_vec3 (shader name : String) (value : Vec3)
  | set_float (shader name : String) (value : Scalar)
  | set_mat4 (shader name : String) (value : Mat4)
  | draw (model shader : String)
  | draw_blended (model shader : String)
  | draw_instanced (model shader : String) (amount : Nat) (model_matrices : List Mat4)
  | draw_skybox (shader skybox : String)
  deriving DecidableEq, Repr

/-- The renderer draw calls: `Model::draw`, `Model::draw_blended`,
`Model::draw_instanced` and `GraphicsController::draw_skybox`. -/
def Call.is_draw_call : Call → Bool
  | Call.draw _ _ => true
  | Call.draw_blended _ _ => true
  | Call.draw_instanced _ _ _ _ => true
  | Call.draw_skybox _ _ => true
  | _ => false

/-- The calls that add an entry to the platform's observer table. -/
def Call.registers_observer : Call → Bool
  | Call.register_platform_event_observer _ => true
  | _ => false

/-- The calls to `Camera::move_camera`. -/
def Call.is_move : Call → Bool
  | Call.move_camera _ _ => true
  | _ => false

/-- The value a call sends to the `vec3` uniform `name` of `shader`, if it is such a call. -/
def Call.vec3_sent (shader name : String) : Call → Option Vec3
  | Call.set_vec3 s n v => if s = shader ∧ n = name then some v else none
  | _ => none

/-- The value a call sends to the `float` uniform `name` of `shader`, if it is such a call. -/
def Call.float_sent (shader name : String) : Call → Option Scalar
  | Call.set_float s n x => if s = shader ∧ n = name then some x else none
  | _ => none

/-- The controller instance a call is made on, when it is made on a controller. -/
def Call.receiver : Call → Option ControllerId
  | Call.bloom_setup => some ControllerId.BloomController
  | Call.prepare_hdr => some ControllerId.BloomController
  | Call.finalize_bloom => some ControllerId.BloomController
  | Call.register_platform_event_observer _ => some ControllerId.PlatformController
  | Call.set_enable_cursor _ => some ControllerId.PlatformController
  | Call.swap_buffers => some ControllerId.PlatformController
  | Call.draw_skybox _ _ => some ControllerId.GraphicsController
  | _ => none

/-! ## State -/

/-- The data members of `app::MainController` (MainController.hpp lines 66 to 74),
with their default member initialisers. -/
structure MainController where
  m_is_day : Bool := true
  m_day_change_requested : Bool := false
  m_day_change_timer : Scalar := 0.0
  m_current_exposure : Scalar := 1.2
  active_daytime_skybox : String := "skybox_day"
  active_nighttime_skybox : String := "skybox_night"
  deriving DecidableEq, Repr

/-- The constant `MainController::DAY_CHANGE_DELAY`. -/
def DAY_CHANGE_DELAY : Scalar := 3.0

/-- The constant `MainController::DAY_EXPOSURE`. -/
def DAY_EXPOSURE : Scalar := 1.2

/-- The constant `MainController::NIGHT_EXPOSURE`. -/
def NIGHT_EXPOSURE : Scalar := 0.6

/-- Everything the code of `MainController.cpp` can change.
* `main`: the controller's own fields;
* `camera`: the engine camera reached through the global `camera` and through
  `get<GraphicsController>()->camera()` (the same object);
* `cursor_enabled`: the platform flag read by `is_cursor_enabled()` and written by
  `set_enable_cursor`;
* `start_time`: the function-local static of `draw_fire`, unset until first use;
* `clock_reads`: how many times `PlatformController::getTime()` has been read;
* `log`: the calls into the engine made so far, oldest first.
The pointer globals `resources`, `graphics`, `bloom_controller` are bound by
`initialize` to the engine singletons and are referred to as those singletons; the
global `gui` is assigned in `initialize` and never read. -/
structure World where
  main : MainController
  camera : Camera
  cursor_enabled : Bool
  start_time : Option Scalar
  clock_reads : Nat
  log : List Call
  deriving DecidableEq, Repr

/-- What the code reads from the engine without changing it, for one hook call:
key states, the frame delta time, `GUIController::is_enabled()` and the successive
values of `PlatformController::getTime()`. -/
structure Input where
  key : KeyId → Key
  dt : Scalar
  gui_enabled : Bool
  getTime : Nat → Scalar

/-- The two `engine::graphics::Camera` methods the application calls. Their bodies are
engine code, so they are parameters of the embedding. -/
structure Engine where
  move_camera : Movement → Scalar → Camera → Camera
  rotate_camera : Scalar → Scalar → Camera → Camera

/-- A world to run the code from: a freshly constructed controller, a camera at the
origin, the cursor enabled, `draw_fire` not yet run, an empty log. -/
def World.fresh : World :=
  { main := {}
    camera := { Position := ⟨0, 0, 0⟩, Front := ⟨0, 0, -1⟩, Yaw := -90, Pitch := 0,
                MovementSpeed := 0 }
    cursor_enabled := true
    start_time := none
    clock_reads := 0
    log := [] }

/-- The input of a frame in which key `k` has just gone down (state `JustPressed`,
`is_down()` true), every other key is released and the GUI is disabled. -/
def Input.just_pressed (k : KeyId) : Input :=
  { key := fun k' => if k' = k then ⟨KeyState.JustPressed, true⟩ else ⟨KeyState.Released, false⟩
    dt := 1 / 60
    gui_enabled := false
    getTime := fun n => n }

/-- The input of a frame in which exactly the keys of `ks` are held (state `Pressed`,
`is_down()` true), every other key is released and the GUI is disabled. -/
def Input.holding (ks : List KeyId) : Input :=
  { key := fun k => if k ∈ ks then ⟨KeyState.Pressed, true⟩ else ⟨KeyState.Released, false⟩
    dt := 1 / 60
    gui_enabled := false
    getTime := fun n => n }

/-- The same input seen while the GUI is enabled. -/
def Input.with_gui (i : Input) : Input :=
  { i with gui_enabled := true }

/-- An engine whose camera methods leave the camera fields alone. -/
def Engine.still : Engine :=
  { move_camera := fun _ _ c => c, rotate_camera := fun _ _ c => c }

/-- A piece of imperative code over the `World`, returning a value. -/
def Prog (α : Type) : Type := World → α × World

instance : Monad Prog where
  pure a := fun w => (a, w)
  bind m f := fun w => f (m w).1 (m w).2

/-- The world after running `m` from `w`. -/
def Prog.exec {α : Type} (m : Prog α) (w : World) : World := (m w).2

/-- The value `m` returns when run from `w`. -/
def Prog.result {α : Type} (m : Prog α) (w : World) : α := (m w).1

/-- The calls into the engine that `m` makes when run from `w`. -/
def Prog.issued {α : Type} (m : Prog α) (w : World) : List Call :=
  (m.exec w).log.drop w.log.length

/-- Read the current world. -/
def world : Prog World := fun w => (w, w)

/-- Overwrite part of the world. -/
def update_world (f : World → World) : Prog Unit := fun w => ((), f w)

/-- Make a call into the engine: it is appended to the log. -/
def call (c : Call) : Prog Unit := fun w => ((), { w with log := w.log ++ [c] })

/-- `camera->move_camera(direction, dt)`. -/
def move_camera (E : Engine) (direction : Movement) (dt : Scalar) : Prog Unit := do
  update_world fun w => { w with camera := E.move_camera direction dt w.camera }
  call (Call.move_camera direction dt)

/-- `camera->rotate_camera(dx, dy)`. -/
def rotate_camera (E : Engine) (dx dy : Scalar) : Prog Unit := do
  update_world fun w => { w with camera := E.rotate_camera dx dy w.camera }
  call (Call.rotate_camera dx dy)

/-- `platform->set_enable_cursor(enabled)`. -/
def set_enable_cursor (enabled : Bool) : Prog Unit := do
  update_world fun w => { w with cursor_enabled := enabled }
  call (Call.set_enable_cursor enabled)

/-- `platform->is_cursor_enabled()`. -/
def is_cursor_enabled : Prog Bool := do
  let w ← world
  pure w.cursor_enabled

/-- `engine::platform::PlatformController::getTime()`: the next value of the clock. -/
def getTime (i : Input) : Prog Scalar := do
  let w ← world
  update_world fun w => { w with clock_reads := w.clock_reads + 1 }
  pure (i.getTime w.clock_reads)

/-- Assignment to `camera->MovementSpeed`. -/
def set_MovementSpeed (v : Scalar) : Prog Unit :=
  update_world fun w => { w with camera := { w.camera with MovementSpeed := v } }

/-! ## `MainController.cpp`: observer and phase hooks -/

/-- `MainPlatformEventObserver::on_mouse_move` (MainController.cpp lines 23 to 28). -/
def MainPlatformEventObserver.on_mouse_move (E : Engine) (i : Input)
    (position : MousePosition) : Prog Unit :=
  if i.gui_enabled then
    pure ()
  else
    rotate_camera E position.dx position.dy

/-- `MainController::initialize` (MainController.cpp lines 30 to 47). -/
def MainController.initialize : Prog Unit := do
  call Call.enable_depth_testing
  call Call.bloom_setup
  call (Call.register_platform_event_observer Observer.MainPlatformEventObserver)
  set_enable_cursor false
  update_world fun w => { w with main := { w.main with m_is_day := true } }
  update_world fun w => { w with camera := { w.camera with Front := ⟨0.77, -0.08, -0.6⟩ } }
  update_world fun w => { w with camera := { w.camera with Position := ⟨5, 27, 17⟩ } }
  update_world fun w => { w with camera := { w.camera with Yaw := -38 } }
  update_world fun w => { w with camera := { w.camera with Pitch := -5 } }

/-- `MainController::loop` (MainController.cpp lines 49 to 54). -/
def MainController.loop (i : Input) : Prog Bool :=
  if (i.key KeyId.KEY_ESCAPE).is_down then
    pure false
  else
    pure true

/-- `MainController::begin_draw` (MainController.cpp lines 56 to 58). -/
def MainController.begin_draw : Prog Unit :=
  call Call.clear_buffers

/-- `MainController::end_draw` (MainController.cpp lines 60 to 62). -/
def MainController.end_draw : Prog Unit :=
  call Call.swap_buffers

/-- `MainController::update_camera` (MainController.cpp lines 506 to 563). Each `if`
statement of the body is one parenthesised step; a missing `else` is `pure ()`. -/
def MainController.update_camera (E : Engine) (i : Input) : Prog Unit :=
  if i.gui_enabled then
    pure ()
  else do
    (if (i.key KeyId.KEY_W).is_down || (i.key KeyId.KEY_UP).is_down then do
      (if (i.key KeyId.KEY_LEFT_SHIFT).is_down then
        set_MovementSpeed 20
      else
        set_MovementSpeed 7)
      move_camera E Movement.FORWARD i.dt
    else pure ())
    (if (i.key KeyId.KEY_S).is_down || (i.key KeyId.KEY_DOWN).is_down then do
      (if (i.key KeyId.KEY_LEFT_SHIFT).is_down then
        set_MovementSpeed 20
      else
        set_MovementSpeed 7)
      move_camera E Movement.BACKWARD i.dt
    else pure ())
    (if (i.key KeyId.KEY_A).is_down || (i.key KeyId.KEY_LEFT).is_down then do
      (if (i.key KeyId.KEY_LEFT_SHIFT).is_down then
        set_MovementSpeed 20
      else
        set_MovementSpeed 7)
      move_camera E Movement.LEFT i.dt
    else pure ())
    (if (i.key KeyId.KEY_D).is_down || (i.key KeyId.KEY_RIGHT).is_down then do
      (if (i.key KeyId.KEY_LEFT_SHIFT).is_down then
        set_MovementSpeed 20
      else
        set_MovementSpeed 7)
      move_camera E Movement.RIGHT i.dt
    else pure ())
    (if (i.key KeyId.KEY_SPACE).is_down then
      (if (i.key KeyId.KEY_LEFT_SHIFT).is_down then
        move_camera E Movement.DOWN i.dt
      else
        move_camera E Movement.UP i.dt)
    else pure ())
    (if (i.key KeyId.KEY_P).state = KeyState.JustPressed then do
      let enabled ← is_cursor_enabled
      set_enable_cursor (!enabled)
    else pure ())
    (if (i.key KeyId.KEY_N).state = KeyState.JustPressed then
      update_world fun w => { w with main := { w.main with m_is_day := !w.main.m_is_day } }
    else pure ())
    (if (i.key KeyId.KEY_Q).is_down then
      rotate_camera E (-10) 0
    else pure ())
    (if (i.key KeyId.KEY_E).is_down then
      rotate_camera E 10 0
    else pure ())

/-- `MainController::update` (MainController.cpp lines 502 to 504). -/
def MainController.update (E : Engine) (i : Input) : Prog Unit :=
  MainController.update_camera E i

/-! ## `MainController.cpp`: the Draw phase -/

/-- Run `body` on every element of `xs`, in order: a range-based `for` loop. -/
def for_each {α : Type} : List α → (α → Prog Unit) → Prog Unit
  | [], _ => pure ()
  | x :: xs, body => do
    body x
    for_each xs body

/-- The local `struct tree_placement` of `draw_forest`. -/
structure tree_placement where
  x : Scalar
  y : Scalar
  z : Scalar
  scale : Scalar
  deriving DecidableEq, Repr

/-- The local `struct log_placement` of `draw_logs`. -/
structure log_placement where
  rotation_angle : Scalar
  position : Vec3
  deriving DecidableEq, Repr

/-- The placement tables pulled in with `#include` (`yellow_trees.include`,
`green_trees.include`, `tall_trees.include`, `pine_trees.include`,
`white_flowers.include`, `red_flowers.include`). The files are not part of the
sources at hand, so their contents are parameters. The four tree tables are declared
with 18, 15, 3 and 26 elements; the two flower tables take their size from their
contents, a compile-time constant far below the range of `unsigned int`. -/
structure Scene where
  yellow_trees : List tree_placement
  green_trees : List tree_placement
  tall_trees : List tree_placement
  pine_trees : List Vec3
  white_flowers : List Vec3
  red_flowers : List Vec3

/-- `MainController::set_common_shader_variables` (MainController.cpp lines 64 to 83);
the `camera` and `graphics` arguments are the globals at every call site. -/
def MainController.set_common_shader_variables (shader : String) : Prog Unit := do
  let w ← world
  let light_position : Vec3 := if w.main.m_is_day then ⟨0.0, 60.0, 0.0⟩ else ⟨12.0, 25.0, 6.0⟩
  let ambient := if w.main.m_is_day then vec3 0.2 else vec3 0.1
  let diffuse := if w.main.m_is_day then vec3 0.5 else vec3 0.3
  let specular := if w.main.m_is_day then vec3 0.1 else vec3 0.05
  let shininess : Scalar := if w.main.m_is_day then 1024.0 else 2048.0
  let light_color : Vec3 := if w.main.m_is_day then ⟨1.0, 1.0, 1.0⟩ else ⟨1.0, 0.7, 0.1⟩
  call (Call.use shader)
  call (Call.set_vec3 shader "light.position" light_position)
  call (Call.set_vec3 shader "light.ambient" ambient)
  call (Call.set_vec3 shader "light.diffuse" diffuse)
  call (Call.set_vec3 shader "light.specular" specular)
  call (Call.set_vec3 shader "lightColor" light_color)
  call (Call.set_float shader "material.shininess" shininess)
  call (Call.set_vec3 shader "viewPos" w.camera.Position)
  call (Call.set_mat4 shader "projection" Mat4.projection_matrix)
  call (Call.set_mat4 shader "view" (Mat4.view_matrix w.camera))

/-- The lambda `draw_tree` of `draw_forest` (lines 115 to 126); the defaulted
arguments `rotation_angle = 0.0f`, `rotation_axis = (0, 0, 0)` are passed explicitly. -/
def MainController.draw_forest.draw_tree (tree_shader tree_model : String)
    (x y z scale rotation_angle : Scalar) (rotation_axis : Vec3) : Prog Unit := do
  let model := Mat4.identity
  let model := if rotation_angle ≠ 0.0 then Mat4.rotate model rotation_angle rotation_axis else model
  let model := Mat4.translate model ⟨x, y, z⟩
  let model := Mat4.scale model (vec3 scale)
  call (Call.set_mat4 tree_shader "model" model)
  call (Call.draw tree_model tree_shader)

/-- `MainController::draw_forest` (MainController.cpp lines 105 to 165). -/
def MainController.draw_forest (S : Scene) : Prog Unit := do
  let tree_shader := "basic"
  MainController.set_common_shader_variables tree_shader
  for_each S.yellow_trees fun p =>
    draw_forest.draw_tree tree_shader "yellow_tree" p.x p.y p.z p.scale 0.0 ⟨0, 0, 0⟩
  for_each S.green_trees fun p =>
    draw_forest.draw_tree tree_shader "green_tree" p.x p.y p.z p.scale (-90.0) ⟨1.0, 0, 0⟩
  for_each S.tall_trees fun p =>
    draw_forest.draw_tree tree_shader "beech_tree" p.x p.y p.z p.scale 0.0 ⟨0, 0, 0⟩
  draw_forest.draw_tree tree_shader "oak_tree" (-17) 28 (-17) 0.210 90.0 ⟨1, 0, 0⟩
  for_each S.pine_trees fun pos =>
    draw_forest.draw_tree tree_shader "pine_tree" pos.x pos.y pos.z 11.0 (-90.0) ⟨1, 0, 0⟩

/-- `MainController::draw_campfire` (MainController.cpp lines 167 to 177). -/
def MainController.draw_campfire : Prog Unit := do
  let campfire_shader := "basic"
  MainController.set_common_shader_variables campfire_shader
  let w ← world
  call (Call.set_vec3 campfire_shader "light.diffuse"
    (if w.main.m_is_day then vec3 0.5 else vec3 5.0))
  let model := Mat4.translate Mat4.identity ⟨12.0, 17.3, 6.0⟩
  call (Call.set_mat4 campfire_shader "model" model)
  call (Call.draw "campfire" campfire_shader)

/-- `MainController::draw_logs` (MainController.cpp lines 179 to 206). -/
def MainController.draw_logs : Prog Unit := do
  let log_seat_shader := "basic"
  MainController.set_common_shader_variables log_seat_shader
  let w ← world
  call (Call.set_vec3 log_seat_shader "light.diffuse"
    (if w.main.m_is_day then vec3 0.5 else vec3 4.0))
  let logs : List log_placement :=
    [ ⟨42.0, ⟨6, 17.5, 2⟩⟩, ⟨155.0, ⟨-16, 17.5, -9⟩⟩, ⟨-100.0, ⟨1, 17.5, -26⟩⟩ ]
  for_each logs fun p => do
    let model := Mat4.identity
    let model := Mat4.rotate model p.rotation_angle ⟨0, 1, 0⟩
    let model := Mat4.translate model p.position
    let model := Mat4.scale model (vec3 0.04)
    call (Call.set_mat4 log_seat_shader "model" model)
    call (Call.draw "log_seat" log_seat_shader)

/-- `MainController::draw_tents` (MainController.cpp lines 208 to 229). -/
def MainController.draw_tents : Prog Unit := do
  let tent_shader := "basic"
  MainController.set_common_shader_variables tent_shader
  let w ← world
  call (Call.set_vec3 tent_shader "light.diffuse"
    (if w.main.m_is_day then vec3 0.5 else vec3 2.0))
  let model := Mat4.identity
  let model := Mat4.rotate model (-20.0) ⟨0, 1, 0⟩
  let model := Mat4.translate model ⟨16, 17, -14⟩
  let model := Mat4.scale model (vec3 0.037)
  call (Call.set_mat4 tent_shader "model" model)
  call (Call.draw "viking_tent" tent_shader)
  let model := Mat4.identity
  let model := Mat4.rotate model (-128.0) ⟨0, 1, 0⟩
  let model := Mat4.translate model ⟨0, 20, -33⟩
  let model := Mat4.scale model (vec3 0.06)
  call (Call.set_mat4 tent_shader "model" model)
  call (Call.draw "stylized_tent" tent_shader)

/-- `MainController::draw_old_tree` (MainController.cpp lines 231 to 245). -/
def MainController.draw_old_tree : Prog Unit := do
  let old_tree_shader := "basic"
  MainController.set_common_shader_variables old_tree_shader
  let model := Mat4.identity
  let model := Mat4.rotate model 3.0 ⟨0, 0, 1⟩
  let model := Mat4.translate model ⟨65, 40, -39⟩
  let model := Mat4.scale model (vec3 0.04)
  call (Call.set_mat4 old_tree_shader "model" model)
  call (Call.draw "old_tree" old_tree_shader)

/-- The lambda `draw_model` of `draw_bushes` (lines 255 to 258). -/
def MainController.draw_bushes.draw_model (bush_shader model : String) (transform : Mat4) :
    Prog Unit := do
  call (Call.set_mat4 bush_shader "model" transform)
  call (Call.draw_blended model bush_shader)

/-- The lambda `draw_bush1` of `draw_bushes` (lines 260 to 266). -/
def MainController.draw_bushes.draw_bush1 (bush_shader : String) (translation : Vec3)
    (scale : Scalar) : Prog Unit := do
  let model := Mat4.identity
  let model := Mat4.rotate model (-90.0) ⟨1, 0, 0⟩
  let model := Mat4.translate model translation
  let model := Mat4.scale model (vec3 scale)
  draw_bushes.draw_model bush_shader "bush1" model

/-- The lambda `draw_simple` of `draw_bushes` (lines 268 to 273). -/
def MainController.draw_bushes.draw_simple (bush_shader model : String) (translation : Vec3)
    (scale : Scalar) : Prog Unit := do
  let m := Mat4.identity
  let m := Mat4.translate m translation
  let m := Mat4.scale m (vec3 scale)
  draw_bushes.draw_model bush_shader model m

/-- `MainController::draw_bushes` (MainController.cpp lines 247 to 289). -/
def MainController.draw_bushes : Prog Unit := do
  let bush_shader := "basic"
  MainController.set_common_shader_variables bush_shader
  draw_bushes.draw_bush1 bush_shader ⟨-19, -3, 16⟩ 5.0
  draw_bushes.draw_bush1 bush_shader ⟨15, 25, 16⟩ 5.0
  draw_bushes.draw_bush1 bush_shader ⟨52, -19, 17⟩ 5.0
  draw_bushes.draw_bush1 bush_shader ⟨31, -32, 17⟩ 5.0
  draw_bushes.draw_bush1 bush_shader ⟨12, -24, 17⟩ 5.0
  draw_bushes.draw_simple bush_shader "bush2" ⟨4, 20, -13⟩ 0.3
  draw_bushes.draw_simple bush_shader "bush2" ⟨32, 20, 4⟩ 0.3
  draw_bushes.draw_simple bush_shader "bush2" ⟨30, 20, 12⟩ 0.3
  draw_bushes.draw_simple bush_shader "laurel_bush" ⟨-25, 16, 0⟩ 0.680
  draw_bushes.draw_simple bush_shader "laurel_bush" ⟨-25, 16, 12⟩ 0.680
  draw_bushes.draw_simple bush_shader "laurel_bush" ⟨-20, 16, 23⟩ 0.680
  draw_bushes.draw_simple bush_shader "laurel_bush" ⟨-5, 16, 23⟩ 0.680
  draw_bushes.draw_simple bush_shader "laurel_bush" ⟨6, 17, 20⟩ 0.680
  draw_bushes.draw_simple bush_shader "laurel_bush" ⟨33, 17, -6⟩ 0.680

/-- `MainController::draw_white_flowers` (MainController.cpp lines 291 to 332). -/
def MainController.draw_white_flowers (S : Scene) : Prog Unit := do
  let flower_shader := "flower_shader"
  let translations := S.white_flowers
  let row_count : Nat := 2
  let col_count : Nat := 10
  let amount : Nat := row_count * col_count + translations.length
  let grid : List Mat4 := (List.range row_count).flatMap fun row =>
    let x : Scalar := if row = 0 then 40.0 else 44.0
    (List.range col_count).map fun col =>
      let model := Mat4.identity
      let model := Mat4.translate model ⟨x, 17.4, 4.0 * (col : Scalar) - 16⟩
      let model := Mat4.rotate model 90.0 ⟨1, 0, 0⟩
      Mat4.scale model (vec3 0.12)
  let model_matrices : List Mat4 := grid ++ translations.map fun translation =>
    let model := Mat4.identity
    let model := Mat4.rotate model 90.0 ⟨1, 0, 0⟩
    let model := Mat4.translate model translation
    Mat4.scale model (vec3 0.12)
  MainController.set_common_shader_variables flower_shader
  let w ← world
  call (Call.set_vec3 flower_shader "light.ambient"
    (if w.main.m_is_day then vec3 0.2 else vec3 0.05))
  call (Call.set_vec3 flower_shader "light.diffuse"
    (if w.main.m_is_day then vec3 0.5 else vec3 0.1))
  call (Call.draw_instanced "flowers2" flower_shader amount model_matrices)

/-- `MainController::draw_red_flowers` (MainController.cpp lines 385 to 410). -/
def MainController.draw_red_flowers (S : Scene) : Prog Unit := do
  let flower_shader := "flower_shader"
  let translations := S.red_flowers
  let model_matrices : List Mat4 := translations.map fun translation =>
    let model := Mat4.identity
    let model := Mat4.rotate model (-90.0) ⟨1, 0, 0⟩
    let model := Mat4.translate model translation
    Mat4.scale model (vec3 0.04)
  MainController.set_common_shader_variables flower_shader
  let w ← world
  call (Call.set_vec3 flower_shader "light.ambient"
    (if w.main.m_is_day then vec3 0.2 else vec3 0.05))
  call (Call.set_vec3 flower_shader "light.diffuse"
    (if w.main.m_is_day then vec3 0.5 else vec3 0.1))
  call (Call.draw_instanced "roses" flower_shader model_matrices.length model_matrices)

/-- `MainController::draw_flowers` (MainController.cpp lines 334 to 337). -/
def MainController.draw_flowers (S : Scene) : Prog Unit := do
  MainController.draw_white_flowers S
  MainController.draw_red_flowers S

/-- The lambda `draw_path_segment` of `draw_path` (lines 345 to 354). -/
def MainController.draw_path.draw_path_segment (stone_shader : String) (translation : Vec3)
    (yRotation scale : Scalar) : Prog Unit := do
  let model := Mat4.identity
  let model := Mat4.rotate model 90.0 ⟨1, 0, 0⟩
  let model := Mat4.rotate model yRotation ⟨0, 1, 0⟩
  let model := Mat4.rotate model 15.0 ⟨0, 0, 1⟩
  let model := Mat4.translate model translation
  let model := Mat4.scale model (vec3 scale)
  call (Call.set_mat4 stone_shader "model" model)
  call (Call.draw "path" stone_shader)

/-- `MainController::draw_path` (MainController.cpp lines 339 to 360). -/
def MainController.draw_path : Prog Unit := do
  let stone_shader := "basic"
  MainController.set_common_shader_variables stone_shader
  draw_path.draw_path_segment stone_shader ⟨-13, 22, -20⟩ 10.0 0.19
  draw_path.draw_path_segment stone_shader ⟨-11, 19, -17⟩ (-1.0) 0.19
  draw_path.draw_path_segment stone_shader ⟨-6.5, 15, -17.5⟩ 0.0 0.19
  draw_path.draw_path_segment stone_shader ⟨-1, 12, -17.5⟩ 0.0 0.19

/-- The lambda `draw_mushroom` of `draw_mushrooms` (lines 368 to 376); the defaulted
argument `yRotation = 0.0f` is passed explicitly. -/
def MainController.draw_mushrooms.draw_mushroom (shroom_shader : String) (translation : Vec3)
    (scale yRotation : Scalar) : Prog Unit := do
  let model := Mat4.identity
  let model := Mat4.rotate model (-90.0) ⟨1, 0, 0⟩
  let model := Mat4.rotate model yRotation ⟨0, 1, 0⟩
  let model := Mat4.translate model translation
  let model := Mat4.scale model (vec3 scale)
  call (Call.set_mat4 shroom_shader "model" model)
  call (Call.draw "shrooms" shroom_shader)

/-- `MainController::draw_mushrooms` (MainController.cpp lines 362 to 383). -/
def MainController.draw_mushrooms : Prog Unit := do
  let shroom_shader := "basic"
  MainController.set_common_shader_variables shroom_shader
  draw_mushrooms.draw_mushroom shroom_shader ⟨6, 0, 16⟩ 0.19 (-19.0)
  draw_mushrooms.draw_mushroom shroom_shader ⟨3, 8, 17⟩ 0.19 0.0
  draw_mushrooms.draw_mushroom shroom_shader ⟨12, 19, 17⟩ 0.19 0.0
  draw_mushrooms.draw_mushroom shroom_shader ⟨30, 1, 17⟩ 0.19 0.0
  draw_mushrooms.draw_mushroom shroom_shader ⟨30, -10, 17⟩ 0.19 0.0

/-- `MainController::draw_terrain` (MainController.cpp lines 412 to 420). -/
def MainController.draw_terrain : Prog Unit := do
  let terrain_shader := "basic"
  MainController.set_common_shader_variables terrain_shader
  let model := Mat4.identity
  let model := Mat4.translate model ⟨0.0, 0.0, 0.0⟩
  call (Call.set_mat4 terrain_shader "model" model)
  call (Call.draw "terrain" terrain_shader)

/-- `MainController::draw_water` (MainController.cpp lines 422 to 448). -/
def MainController.draw_water (i : Input) : Prog Unit := do
  let water_shader := "water_shader"
  let w ← world
  let lightPos : Vec3 := if w.main.m_is_day then ⟨0.0, 60.0, 0.0⟩ else ⟨12.0, 25.0, 6.0⟩
  call (Call.use water_shader)
  let current_time ← getTime i
  call (Call.set_float water_shader "time" current_time)
  let waterColor : Vec3 := if w.main.m_is_day then ⟨0.0, 0.4, 0.6⟩ else ⟨0.0, 0.1, 0.3⟩
  call (Call.set_vec3 water_shader "waterColor" waterColor)
  call (Call.set_vec3 water_shader "lightPos" lightPos)
  call (Call.set_vec3 water_shader "viewPos" w.camera.Position)
  call (Call.set_mat4 water_shader "projection" Mat4.projection_matrix)
  call (Call.set_mat4 water_shader "view" (Mat4.view_matrix w.camera))
  let model := Mat4.identity
  let model := Mat4.scale model ⟨30, 1, 30⟩
  let model := Mat4.translate model ⟨0, 7, 0⟩
  let model := Mat4.rotate model (-90.0) ⟨1, 0, 0⟩
  call (Call.set_mat4 water_shader "model" model)
  call (Call.draw_blended "water" water_shader)

/-- `MainController::draw_skybox` (MainController.cpp lines 450 to 458). -/
def MainController.draw_skybox : Prog Unit := do
  let shader := "skybox"
  let w ← world
  let skybox_cube :=
    if w.main.m_is_day then w.main.active_daytime_skybox else w.main.active_nighttime_skybox
  call (Call.draw_skybox shader skybox_cube)

/-- `MainController::draw_stones` (MainController.cpp lines 460 to 473). -/
def MainController.draw_stones : Prog Unit := do
  let stone_shader := "basic"
  MainController.set_common_shader_variables stone_shader
  let model := Mat4.identity
  let model := Mat4.rotate model (-90.0) ⟨1, 0, 0⟩
  let model := Mat4.rotate model (-48.0) ⟨0, 0, 1⟩
  let model := Mat4.translate model ⟨29, 71, 12⟩
  let model := Mat4.scale model (vec3 1.35)
  call (Call.set_mat4 stone_shader "model" model)
  call (Call.draw "grave" stone_shader)

/-- The initialisation of the function-local `static double start_time` of `draw_fire`
(line 489): the clock is read the first time control passes through, never again. -/
def MainController.draw_fire.start_time (i : Input) : Prog Scalar := do
  let w ← world
  match w.start_time with
  | some t => pure t
  | none => do
    let t ← getTime i
    update_world fun w => { w with start_time := some t }
    pure t

/-- `MainController::draw_fire` (MainController.cpp lines 475 to 500). -/
def MainController.draw_fire (i : Input) : Prog Unit := do
  let fire_shader := "fire_shader"
  call (Call.use fire_shader)
  let w ← world
  call (Call.set_vec3 fire_shader "viewPos" w.camera.Position)
  call (Call.set_mat4 fire_shader "projection" Mat4.projection_matrix)
  call (Call.set_mat4 fire_shader "view" (Mat4.view_matrix w.camera))
  let model := Mat4.identity
  let model := Mat4.translate model ⟨12, 20.5, 6.5⟩
  let model := Mat4.scale model (vec3 3.1)
  call (Call.set_mat4 fire_shader "model" model)
  let start_time ← draw_fire.start_time i
  let now ← getTime i
  let current_time := now - start_time
  call (Call.set_float fire_shader "time" current_time)
  call (Call.set_vec3 fire_shader "fireColor" ⟨1.0, 0.6, 0.2⟩)
  call (Call.set_vec3 fire_shader "glowColor" ⟨1.0, 0.3, 0.0⟩)
  call (Call.set_float fire_shader "intensity" 50.0)
  call (Call.set_float fire_shader "flickerSpeed" 5.0)
  call (Call.set_float fire_shader "distortionAmount" 0.1)
  call (Call.draw_blended "fire" fire_shader)

/-- `MainController::draw` (MainController.cpp lines 85 to 103). -/
def MainController.draw (S : Scene) (i : Input) : Prog Unit := do
  call Call.prepare_hdr
  MainController.draw_water i
  MainController.draw_terrain
  MainController.draw_campfire
  MainController.draw_logs
  MainController.draw_tents
  MainController.draw_old_tree
  MainController.draw_forest S
  MainController.draw_bushes
  MainController.draw_flowers S
  MainController.draw_path
  MainController.draw_mushrooms
  MainController.draw_stones
  let w ← world
  (if !w.main.m_is_day then
    MainController.draw_fire i
  else pure ())
  MainController.draw_skybox
  call Call.finalize_bloom

/-- `MainController::set_skybox` (MainController.hpp lines 13 to 19). -/
def MainController.set_skybox (new_skybox : String) (is_daytime_skybox : Bool) : Prog Unit := do
  let w ← world
  if w.main.m_is_day && is_daytime_skybox then
    update_world fun w => { w with main := { w.main with active_daytime_skybox := new_skybox } }
  else if !w.main.m_is_day && !is_daytime_skybox then
    update_world fun w => { w with main := { w.main with active_nighttime_skybox := new_skybox } }
  else
    pure ()

/-! ## The static call graph of `MainController.cpp` -/

/-- The functions defined in `MainController.cpp` and `MainController.hpp`; `init`
stands for `MainController::initialize`. -/
inductive Fn
  | on_mouse_move | init | loop | begin_draw | end_draw | update | update_camera
  | set_skybox | set_common_shader_variables | draw
  | draw_water | draw_terrain | draw_campfire | draw_logs | draw_tents | draw_old_tree
  | draw_forest | draw_bushes | draw_flowers | draw_white_flowers | draw_red_flowers
  | draw_path | draw_mushrooms | draw_stones | draw_fire | draw_skybox
  deriving DecidableEq, Repr

/-- Every function of the translation unit, in the order of `Fn`. -/
def Fn.all : List Fn :=
  [ Fn.on_mouse_move, Fn.init, Fn.loop, Fn.begin_draw, Fn.end_draw, Fn.update,
    Fn.update_camera, Fn.set_skybox, Fn.set_common_shader_variables, Fn.draw,
    Fn.draw_water, Fn.draw_terrain, Fn.draw_campfire, Fn.draw_logs, Fn.draw_tents,
    Fn.draw_old_tree, Fn.draw_forest, Fn.draw_bushes, Fn.draw_flowers,
    Fn.draw_white_flowers, Fn.draw_red_flowers, Fn.draw_path, Fn.draw_mushrooms,
    Fn.draw_stones, Fn.draw_fire, Fn.draw_skybox ]

/-- The functions of the translation unit that the body of `f` calls, read off the
source text (and matching the definitions above). -/
def Fn.callees : Fn → List Fn
  | Fn.update => [Fn.update_camera]
  | Fn.draw =>
    [ Fn.draw_water, Fn.draw_terrain, Fn.draw_campfire, Fn.draw_logs, Fn.draw_tents,
      Fn.draw_old_tree, Fn.draw_forest, Fn.draw_bushes, Fn.draw_flowers, Fn.draw_path,
      Fn.draw_mushrooms, Fn.draw_stones, Fn.draw_fire, Fn.draw_skybox ]
  | Fn.draw_flowers => [Fn.draw_white_flowers, Fn.draw_red_flowers]
  | Fn.draw_terrain => [Fn.set_common_shader_variables]
  | Fn.draw_campfire => [Fn.set_common_shader_variables]
  | Fn.draw_logs => [Fn.set_common_shader_variables]
  | Fn.draw_tents => [Fn.set_common_shader_variables]
  | Fn.draw_old_tree => [Fn.set_common_shader_variables]
  | Fn.draw_forest => [Fn.set_common_shader_variables]
  | Fn.draw_bushes => [Fn.set_common_shader_variables]
  | Fn.draw_white_flowers => [Fn.set_common_shader_variables]
  | Fn.draw_red_flowers => [Fn.set_common_shader_variables]
  | Fn.draw_path => [Fn.set_common_shader_variables]
  | Fn.draw_mushrooms => [Fn.set_common_shader_variables]
  | Fn.draw_stones => [Fn.set_common_shader_variables]
  | _ => []

/-- The `draw_*` helpers of `MainController`. -/
def Fn.is_draw_helper : Fn → Bool
  | Fn.draw_water | Fn.draw_terrain | Fn.draw_campfire | Fn.draw_logs | Fn.draw_tents
  | Fn.draw_old_tree | Fn.draw_forest | Fn.draw_bushes | Fn.draw_flowers
  | Fn.draw_white_flowers | Fn.draw_red_flowers | Fn.draw_path | Fn.draw_mushrooms
  | Fn.draw_stones | Fn.draw_fire | Fn.draw_skybox => true
  | _ => false

/-- The functions reachable from `f` by at most `fuel` nested calls (`f` included). -/
def Fn.reachable : Nat → Fn → List Fn
  | 0, f => [f]
  | fuel + 1, f => f :: (f.callees.flatMap (Fn.reachable fuel))

/-- The entry points through which the engine runs `MainController` code outside the
Draw phase: the other five phase hooks and the mouse observer. -/
def Fn.entry_points_outside_draw : List Fn :=
  [ Fn.init, Fn.loop, Fn.begin_draw, Fn.update, Fn.end_draw, Fn.on_mouse_move ]

/-! ## Reasoning about the call log -/

/-- Running `m` only appends to the log, and every call it appends satisfies `P`. -/
structure Issues (P : Call → Prop) {α : Type} (m : Prog α) : Prop where
  out : ∀ w, ∃ cs, (m.exec w).log = w.log ++ cs ∧ ∀ c ∈ cs, P c

/-- A call that is neither a draw call nor an observer registration. -/
def Call.plain (c : Call) : Prop := c.is_draw_call = false ∧ c.registers_observer = false

/-! ## Lemmas -/

theorem Issues.pure {P : Call → Prop} {α : Type} (a : α) : Issues P (Pure.pure a : Prog α) :=
  ⟨fun w => ⟨[], by simp [Prog.exec, Pure.pure], by simp⟩⟩

theorem Issues.world {P : Call → Prop} : Issues P app.world :=
  ⟨fun w => ⟨[], by simp [Prog.exec, app.world], by simp⟩⟩

theorem Issues.update_world {P : Call → Prop} (f : World → World)
    (hf : ∀ w, (f w).log = w.log) : Issues P (update_world f) :=
  ⟨fun w => ⟨[], by simp [Prog.exec, app.update_world, hf], by simp⟩⟩

theorem Issues.call {P : Call → Prop} (c : Call) (hc : P c) : Issues P (call c) :=
  ⟨fun w => ⟨[c], by simp [Prog.exec, app.call], by simpa using hc⟩⟩

theorem Issues.bind {P : Call → Prop} {α β : Type} {m : Prog α} {f : α → Prog β}
    (hm : Issues P m) (hf : ∀ a, Issues P (f a)) : Issues P (m >>= f) := by
  refine ⟨fun w => ?_⟩
  obtain ⟨cs₁, h₁, p₁⟩ := hm.out w
  obtain ⟨cs₂, h₂, p₂⟩ := (hf (m w).1).out (m w).2
  refine ⟨cs₁ ++ cs₂, ?_, ?_⟩
  · have h₁' : (m w).2.log = w.log ++ cs₁ := h₁
    have h₂' : (f (m w).1 (m w).2).2.log = (m w).2.log ++ cs₂ := h₂
    show (f (m w).1 (m w).2).2.log = w.log ++ (cs₁ ++ cs₂)
    rw [h₂', h₁', List.append_assoc]
  · intro c hc
    rcases List.mem_append.mp hc with h | h
    · exact p₁ c h
    · exact p₂ c h

theorem Issues.ite {P : Call → Prop} {α : Type} {c : Prop} [Decidable c] {a b : Prog α}
    (ha : Issues P a) (hb : Issues P b) : Issues P (if c then a else b) := by
  split
  · exact ha
  · exact hb

theorem Issues.mono {P Q : Call → Prop} {α : Type} {m : Prog α} (h : ∀ c, P c → Q c)
    (hm : Issues P m) : Issues Q m :=
  ⟨fun w => by
    obtain ⟨cs, h₁, h₂⟩ := hm.out w
    exact ⟨cs, h₁, fun c hc => h c (h₂ c hc)⟩⟩

theorem Issues.for_each {P : Call → Prop} {α : Type} (xs : List α) (body : α → Prog Unit)
    (hb : ∀ x, Issues P (body x)) : Issues P (for_each xs body) := by
  induction xs with
  | nil => exact Issues.pure ()
  | cons x xs ih => exact Issues.bind (hb x) (fun _ => ih)

theorem Issues.issued {P : Call → Prop} {α : Type} {m : Prog α} (hm : Issues P m) (w : World) :
    ∀ c ∈ m.issued w, P c := by
  obtain ⟨cs, h₁, h₂⟩ := hm.out w
  intro c hc
  have : m.issued w = cs := by simp [Prog.issued, h₁]
  exact h₂ c (this ▸ hc)

@[simp] theorem exec_bind {α β : Type} (m : Prog α) (f : α → Prog β) (w : World) :
    (m >>= f).exec w = (f (m.result w)).exec (m.exec w) := rfl

@[simp] theorem result_bind {α β : Type} (m : Prog α) (f : α → Prog β) (w : World) :
    (m >>= f).result w = (f (m.result w)).result (m.exec w) := rfl

@[simp] theorem exec_pure {α : Type} (a : α) (w : World) : (pure a : Prog α).exec w = w := rfl

@[simp] theorem result_pure {α : Type} (a : α) (w : World) : (pure a : Prog α).result w = a := rfl

@[simp] theorem exec_ite {α : Type} (c : Prop) [Decidable c] (a b : Prog α) (w : World) :
    (if c then a else b).exec w = if c then a.exec w else b.exec w := by
  split <;> rfl

@[simp] theorem result_ite {α : Type} (c : Prop) [Decidable c] (a b : Prog α) (w : World) :
    (if c then a else b).result w = if c then a.result w else b.result w := by
  split <;> rfl

@[simp] theorem exec_call (c : Call) (w : World) :
    (call c).exec w = { w with log := w.log ++ [c] } := rfl

@[simp] theorem exec_update_world (f : World → World) (w : World) :
    (update_world f).exec w = f w := rfl

@[simp] theorem exec_world (w : World) : world.exec w = w := rfl

@[simp] theorem result_world (w : World) : world.result w = w := rfl

theorem issued_of_log {α : Type} (m : Prog α) (w : World) (cs : List Call)
    (h : (m.exec w).log = w.log ++ cs) : m.issued w = cs := by
  simp [Prog.issued, h]

theorem update_camera_plain (E : Engine) (i : Input) :
    Issues Call.plain (MainController.update_camera E i) := by
  unfold MainController.update_camera move_camera rotate_camera set_enable_cursor
    set_MovementSpeed is_cursor_enabled
  repeat (first
    | with_reducible apply Issues.bind
    | with_reducible apply Issues.ite
    | with_reducible exact Issues.pure _
    | with_reducible exact Issues.world
    | ((with_reducible apply Issues.call); exact And.intro rfl rfl)
    | ((with_reducible apply Issues.update_world); exact fun _ => rfl)
    | intro _)

theorem update_camera_main (E : Engine) (i : Input) (w : World) :
    ((MainController.update_camera E i).exec w).main =
      if i.gui_enabled then w.main
      else if (i.key KeyId.KEY_N).state = KeyState.JustPressed then
        { w.main with m_is_day := !w.main.m_is_day }
      else w.main := by
  simp only [MainController.update_camera, move_camera, rotate_camera, set_enable_cursor,
    set_MovementSpeed, is_cursor_enabled, exec_bind, exec_pure, exec_ite, exec_call,
    exec_update_world, result_world, exec_world, apply_ite World.main, ite_self]

theorem set_common_shader_variables_no_registration (shader : String) :
    Issues (fun c => c.registers_observer = false)
      (MainController.set_common_shader_variables shader) := by
  unfold MainController.set_common_shader_variables
  repeat (first
    | with_reducible apply Issues.bind
    | with_reducible exact Issues.pure _
    | with_reducible exact Issues.world
    | ((with_reducible apply Issues.call); exact rfl)
    | intro _)

theorem draw_water_no_registration (i : Input) :
    Issues (fun c => c.registers_observer = false) (MainController.draw_water i) := by
  unfold MainController.draw_water getTime
  repeat (first
    | with_reducible apply Issues.bind
    | with_reducible apply Issues.for_each
    | with_reducible exact Issues.pure _
    | with_reducible exact Issues.world
    | with_reducible exact set_common_shader_variables_no_registration _
    | ((with_reducible apply Issues.call); exact rfl)
    | ((with_reducible apply Issues.update_world); exact fun _ => rfl)
    | intro _)

theorem draw_terrain_no_registration :
    Issues (fun c => c.registers_observer = false) (MainController.draw_terrain) := by
  unfold MainController.draw_terrain
  repeat (first
    | with_reducible apply Issues.bind
    | with_reducible apply Issues.for_each
    | with_reducible exact Issues.pure _
    | with_reducible exact Issues.world
    | with_reducible exact set_common_shader_variables_no_registration _
    | ((with_reducible apply Issues.call); exact rfl)
    | intro _)

theorem draw_campfire_no_registration :
    Issues (fun c => c.registers_observer = false) (MainController.draw_campfire) := by
  unfold MainController.draw_campfire
  repeat (first
    | with_reducible apply Issues.bind
    | with_reducible apply Issues.for_each
    | with_reducible exact Issues.pure _
    | with_reducible exact Issues.world
    | with_reducible exact set_common_shader_variables_no_registration _
    | ((with_reducible apply Issues.call); exact rfl)
    | intro _)

theorem draw_logs_no_registration :
    Issues (fun c => c.registers_observer = false) (MainController.draw_logs) := by
  unfold MainController.draw_logs
  repeat (first
    | with_reducible apply Issues.bind
    | with_reducible apply Issues.for_each
    | with_reducible exact Issues.pure _
    | with_reducible exact Issues.world
    | with_reducible exact set_common_shader_variables_no_registration _
    | ((with_reducible apply Issues.call); exact rfl)
    | intro _)

theorem draw_tents_no_registration :
    Issues (fun c => c.registers_observer = false) (MainController.draw_tents) := by
  unfold MainController.draw_tents
  repeat (first
    | with_reducible apply Issues.bind
    | with_reducible apply Issues.for_each
    | with_reducible exact Issues.pure _
    | with_reducible exact Issues.world
    | with_reducible exact set_common_shader_variables_no_registration _
    | ((with_reducible apply Issues.call); exact rfl)
    | intro _)

theorem draw_old_tree_no_registration :
    Issues (fun c => c.registers_observer = false) (MainController.draw_old_tree) := by
  unfold MainController.draw_old_tree
  repeat (first
    | with_reducible apply Issues.bind
    | with_reducible apply Issues.for_each
    | with_reducible exact Issues.pure _
    | with_reducible exact Issues.world
    | with_reducible exact set_common_shader_variables_no_registration _
    | ((with_reducible apply Issues.call); exact rfl)
    | intro _)

theorem draw_forest_no_registration (S : Scene) :
    Issues (fun c => c.registers_observer = false) (MainController.draw_forest S) := by
  unfold MainController.draw_forest MainController.draw_forest.draw_tree
  repeat (first
    | with_reducible apply Issues.bind
    | with_reducible apply Issues.for_each
    | with_reducible exact Issues.pure _
    | with_reducible exact Issues.world
    | with_reducible exact set_common_shader_variables_no_registration _
    | ((with_reducible apply Issues.call); exact rfl)
    | intro _)

theorem draw_bushes_no_registration :
    Issues (fun c => c.registers_observer = false) (MainController.draw_bushes) := by
  unfold MainController.draw_bushes MainController.draw_bushes.draw_bush1
    MainController.draw_bushes.draw_simple MainController.draw_bushes.draw_model
  repeat (first
    | with_reducible apply Issues.bind
    | with_reducible apply Issues.for_each
    | with_reducible exact Issues.pure _
    | with_reducible exact Issues.world
    | with_reducible exact set_common_shader_variables_no_registration _
    | ((with_reducible apply Issues.call); exact rfl)
    | intro _)

theorem draw_white_flowers_no_registration (S : Scene) :
    Issues (fun c => c.registers_observer = false) (MainController.draw_white_flowers S) := by
  unfold MainController.draw_white_flowers
  repeat (first
    | with_reducible apply Issues.bind
    | with_reducible apply Issues.for_each
    | with_reducible exact Issues.pure _
    | with_reducible exact Issues.world
    | with_reducible exact set_common_shader_variables_no_registration _
    | ((with_reducible apply Issues.call); exact rfl)
    | intro _)

theorem draw_red_flowers_no_registration (S : Scene) :
    Issues (fun c => c.registers_observer = false) (MainController.draw_red_flowers S) := by
  unfold MainController.draw_red_flowers
  repeat (first
    | with_reducible apply Issues.bind
    | with_reducible apply Issues.for_each
    | with_reducible exact Issues.pure _
    | with_reducible exact Issues.world
    | with_reducible exact set_common_shader_variables_no_registration _
    | ((with_reducible apply Issues.call); exact rfl)
    | intro _)

theorem draw_path_no_registration :
    Issues (fun c => c.registers_observer = false) (MainController.draw_path) := by
  unfold MainController.draw_path MainController.draw_path.draw_path_segment
  repeat (first
    | with_reducible apply Issues.bind
    | with_reducible apply Issues.for_each
    | with_reducible exact Issues.pure _
    | with_reducible exact Issues.world
    | with_reducible exact set_common_shader_variables_no_registration _
    | ((with_reducible apply Issues.call); exact rfl)
    | intro _)

theorem draw_mushrooms_no_registration :
    Issues (fun c => c.registers_observer = false) (MainController.draw_mushrooms) := by
  unfold MainController.draw_mushrooms MainController.draw_mushrooms.draw_mushroom
  repeat (first
    | with_reducible apply Issues.bind
    | with_reducible apply Issues.for_each
    | with_reducible exact Issues.pure _
    | with_reducible exact Issues.world
    | with_reducible exact set_common_shader_variables_no_registration _
    | ((with_reducible apply Issues.call); exact rfl)
    | intro _)

theorem draw_stones_no_registration :
    Issues (fun c => c.registers_observer = false) (MainController.draw_stones) := by
  unfold MainController.draw_stones
  repeat (first
    | with_reducible apply Issues.bind
    | with_reducible apply Issues.for_each
    | with_reducible exact Issues.pure _
    | with_reducible exact Issues.world
    | with_reducible exact set_common_shader_variables_no_registration _
    | ((with_reducible apply Issues.call); exact rfl)
    | intro _)

theorem draw_skybox_no_registration :
    Issues (fun c => c.registers_observer = false) (MainController.draw_skybox) := by
  unfold MainController.draw_skybox
  repeat (first
    | with_reducible apply Issues.bind
    | with_reducible apply Issues.for_each
    | with_reducible exact Issues.pure _
    | with_reducible exact Issues.world
    | with_reducible exact set_common_shader_variables_no_registration _
    | ((with_reducible apply Issues.call); exact rfl)
    | intro _)

theorem draw_fire_no_registration (i : Input) :
    Issues (fun c => c.registers_observer = false) (MainController.draw_fire i) := by
  unfold MainController.draw_fire MainController.draw_fire.start_time getTime
  repeat (first
    | with_reducible apply Issues.bind
    | with_reducible exact Issues.pure _
    | with_reducible exact Issues.world
    | ((with_reducible apply Issues.call); exact rfl)
    | ((with_reducible apply Issues.update_world); exact fun _ => rfl)
    | intro _
    | split)

theorem draw_no_registration (S : Scene) (i : Input) :
    Issues (fun c => c.registers_observer = false) (MainController.draw S i) := by
  unfold MainController.draw MainController.draw_flowers
  repeat (first
    | with_reducible apply Issues.bind
    | with_reducible apply Issues.ite
    | with_reducible exact Issues.pure _
    | with_reducible exact Issues.world
    | with_reducible exact draw_water_no_registration _
    | with_reducible exact draw_terrain_no_registration
    | with_reducible exact draw_campfire_no_registration
    | with_reducible exact draw_logs_no_registration
    | with_reducible exact draw_tents_no_registration
    | with_reducible exact draw_old_tree_no_registration
    | with_reducible exact draw_forest_no_registration _
    | with_reducible exact draw_bushes_no_registration
    | with_reducible exact draw_white_flowers_no_registration _
    | with_reducible exact draw_red_flowers_no_registration _
    | with_reducible exact draw_path_no_registration
    | with_reducible exact draw_mushrooms_no_registration
    | with_reducible exact draw_stones_no_registration
    | with_reducible exact draw_fire_no_registration _
    | with_reducible exact draw_skybox_no_registration
    | ((with_reducible apply Issues.call); exact rfl)
    | intro _)

theorem initialize_log (w : World) :
    ( MainController.initialize.exec w).log = w.log ++
      [ Call.enable_depth_testing, Call.bloom_setup,
        Call.register_platform_event_observer Observer.MainPlatformEventObserver,
        Call.set_enable_cursor false ] := by
  simp [ MainController.initialize, Prog.exec, call, set_enable_cursor, update_world, bind]

theorem initialize_issued (w : World) :
    MainController.initialize.issued w =
      [ Call.enable_depth_testing, Call.bloom_setup,
        Call.register_platform_event_observer Observer.MainPlatformEventObserver,
        Call.set_enable_cursor false ] := by
  simp [Prog.issued, initialize_log]

theorem loop_exec (i : Input) (w : World) : (MainController.loop i).exec w = w := by
  unfold MainController.loop
  split <;> rfl

theorem loop_issued (i : Input) (w : World) : (MainController.loop i).issued w = [] := by
  simp [Prog.issued, loop_exec]

theorem begin_draw_issued (w : World) :
    MainController.begin_draw.issued w = [Call.clear_buffers] :=
  issued_of_log _ w _ rfl

theorem end_draw_issued (w : World) :
    MainController.end_draw.issued w = [Call.swap_buffers] :=
  issued_of_log _ w _ rfl

theorem on_mouse_move_exec (E : Engine) (i : Input) (position : MousePosition) (w : World) :
    (MainPlatformEventObserver.on_mouse_move E i position).exec w =
      if i.gui_enabled then w
      else { w with camera := E.rotate_camera position.dx position.dy w.camera
                    log := w.log ++ [Call.rotate_camera position.dx position.dy] } := by
  unfold MainPlatformEventObserver.on_mouse_move rotate_camera
  split <;> rfl

theorem on_mouse_move_issued (E : Engine) (i : Input) (position : MousePosition) (w : World) :
    (MainPlatformEventObserver.on_mouse_move E i position).issued w =
      if i.gui_enabled then [] else [Call.rotate_camera position.dx position.dy] := by
  apply issued_of_log
  rw [on_mouse_move_exec]
  split <;> simp

theorem set_skybox_quiet (new_skybox : String) (is_daytime_skybox : Bool) :
    Issues Call.plain (MainController.set_skybox new_skybox is_daytime_skybox) := by
  unfold MainController.set_skybox
  repeat (first
    | with_reducible apply Issues.bind
    | with_reducible apply Issues.ite
    | with_reducible exact Issues.pure _
    | with_reducible exact Issues.world
    | ((with_reducible apply Issues.update_world); exact fun _ => rfl)
    | intro _)

theorem rank_lt_of_after {a b : ControllerId} (h : After a b) : rank b < rank a := by
  revert h
  cases a <;> cases b <;> decide

theorem rank_lt_of_transGen {a b : ControllerId} (h : Relation.TransGen After a b) :
    rank b < rank a := by
  induction h with
  | single h => exact rank_lt_of_after h
  | tail _ h ih => exact lt_trans (rank_lt_of_after h) ih

/-! ## Claims about `MyApp::app_setup` -/

/-- C1 as stated fails: the order End, Main, GUI, Bloom is consistent with every
after-edge declared by `MyApp::app_setup`, and in it BloomController does not precede
MainController. -/
theorem bloom_before_main_refuted :
    ¬ (∀ order : List ControllerId, is_order order →
        consistent (after_edges app_setup) order →
        precedes order ControllerId.BloomController ControllerId.MainController) := by
  intro h
  have h' := h resolved_order (List.Perm.refl _) (by decide)
  revert h'
  decide

/-- C1 (amended): in every execution order consistent with the after-edges declared by
`MyApp::app_setup`, EngineControllersEnd precedes MainController, and MainController
precedes both GUIController and BloomController (never the other way round), while
`MainController::initialize` calls `bloom_setup()` on BloomController: that call is made
before BloomController has run its own `initialize`. Of the four controllers,
EngineControllersEnd is the only one that precedes MainController in every consistent
execution order. -/
theorem main_initialized_before_bloom (order : List ControllerId)
    (hc : consistent (after_edges app_setup) order) (w : World) :
    precedes order ControllerId.EngineControllersEnd ControllerId.MainController ∧
    precedes order ControllerId.MainController ControllerId.BloomController ∧
    ¬ precedes order ControllerId.BloomController ControllerId.MainController ∧
    Call.bloom_setup ∈ MainController.initialize.issued w ∧
    Call.bloom_setup.receiver = some ControllerId.BloomController ∧
    precedes order ControllerId.MainController ControllerId.GUIController ∧
    ¬ precedes order ControllerId.GUIController ControllerId.MainController ∧
    (∀ c ∈ scheduled,
      (∀ order' : List ControllerId, is_order order' →
        consistent (after_edges app_setup) order' →
        precedes order' c ControllerId.MainController) ↔
      c = ControllerId.EngineControllersEnd) := by
  have h₁ : precedes order ControllerId.EngineControllersEnd ControllerId.MainController :=
    hc (ControllerId.MainController, ControllerId.EngineControllersEnd) (by decide)
  have h₂ : precedes order ControllerId.MainController ControllerId.BloomController :=
    hc (ControllerId.BloomController, ControllerId.MainController) (by decide)
  have h₃ : precedes order ControllerId.MainController ControllerId.GUIController :=
    hc (ControllerId.GUIController, ControllerId.MainController) (by decide)
  refine ⟨h₁, h₂, ?_, ?_, rfl, h₃, ?_, ?_⟩
  · unfold precedes at *
    omega
  · simp [initialize_issued]
  · unfold precedes at *
    omega
  · intro c hmem
    constructor
    · intro hall
      have hres := hall resolved_order (List.Perm.refl _) (by decide)
      simp only [scheduled, List.mem_cons, List.mem_singleton, List.not_mem_nil, or_false]
        at hmem
      rcases hmem with rfl | rfl | rfl | rfl
      · rfl
      · exact absurd hres (by decide)
      · exact absurd hres (by decide)
      · exact absurd hres (by decide)
    · rintro rfl order' _ hc'
      exact hc' (ControllerId.MainController, ControllerId.EngineControllersEnd) (by decide)

/-- Witness for C1 (amended): the order End, Main, GUI, Bloom and a fresh world. -/
theorem main_initialized_before_bloom_witness :
    consistent (after_edges app_setup) resolved_order ∧
    precedes resolved_order ControllerId.MainController ControllerId.BloomController ∧
    precedes resolved_order ControllerId.MainController ControllerId.GUIController ∧
    Call.bloom_setup ∈ MainController.initialize.issued World.fresh :=
  have h := main_initialized_before_bloom resolved_order (by decide) World.fresh
  ⟨by decide, h.2.1, h.2.2.2.2.2.1, h.2.2.2.1⟩

/-- C2: a sequence of the four controllers places every declared edge `(A, B)` with
`A` after `B` exactly when it is End, Main, GUI, Bloom; restricted to the controllers
registered by `app_setup` that order is their registration order Main, GUI, Bloom. -/
theorem execution_order_unique (order : List ControllerId) :
    (is_order order ∧ consistent (after_edges app_setup) order ↔
      order = [ ControllerId.EngineControllersEnd, ControllerId.MainController,
                ControllerId.GUIController, ControllerId.BloomController ]) ∧
    registered app_setup = [ ControllerId.MainController, ControllerId.GUIController,
                             ControllerId.BloomController ] ∧
    resolved_order.filter (fun c => decide (c ∈ registered app_setup)) =
      registered app_setup := by
  refine ⟨⟨?_, ?_⟩, by decide, by decide⟩
  · rintro ⟨hp, hcons⟩
    have hl : order.length = 4 := hp.length_eq
    have hn : order.Nodup := hp.nodup_iff.mpr (by decide)
    match order, hl with
    | [a, b, c, d], _ =>
      have ha : a ∈ scheduled := hp.subset (by simp)
      have hb : b ∈ scheduled := hp.subset (by simp)
      have hc : c ∈ scheduled := hp.subset (by simp)
      have hd : d ∈ scheduled := hp.subset (by simp)
      simp only [scheduled, List.mem_cons, List.mem_singleton, List.not_mem_nil, or_false]
        at ha hb hc hd
      rcases ha with rfl | rfl | rfl | rfl <;> rcases hb with rfl | rfl | rfl | rfl <;>
        rcases hc with rfl | rfl | rfl | rfl <;> rcases hd with rfl | rfl | rfl | rfl <;>
        first
          | rfl
          | (exfalso; revert hn; decide)
          | (exfalso; revert hcons; decide)
  · rintro rfl
    exact ⟨List.Perm.refl _, by decide⟩

/-- C3: the after-relation declared by `MyApp::app_setup` has no self-edge, its
transitive closure is irreflexive (no cycle), and an execution order of the four
controllers consistent with every declared edge exists. -/
theorem after_relation_acyclic :
    (∀ e ∈ after_edges app_setup, e.1 ≠ e.2) ∧
    (∀ a : ControllerId, ¬ Relation.TransGen After a a) ∧
    ∃ order, is_order order ∧ consistent (after_edges app_setup) order := by
  refine ⟨by decide, ?_, resolved_order, List.Perm.refl _, by decide⟩
  intro a h
  exact lt_irrefl _ (rank_lt_of_transGen h)

/-- C9: `MyApp::app_setup` registers each of MainController, GUIController and
BloomController exactly once; its first three calls are the three registrations and
every later call is an edge declaration; and every `after` call names endpoints that
are registered when it is made, EngineControllersEnd counting as registered by the
engine beforehand. -/
theorem setup_calls_well_ordered :
    (registered app_setup).count ControllerId.MainController = 1 ∧
    (registered app_setup).count ControllerId.GUIController = 1 ∧
    (registered app_setup).count ControllerId.BloomController = 1 ∧
    (registered app_setup).length = 3 ∧
    app_setup.take 3 =
      [ SetupOp.register_controller ControllerId.MainController,
        SetupOp.register_controller ControllerId.GUIController,
        SetupOp.register_controller ControllerId.BloomController ] ∧
    (∀ op ∈ app_setup.drop 3, op.is_after = true) ∧
    endpoints_registered [ControllerId.EngineControllersEnd] app_setup = true := by
  decide

/-! ## Claims about `MainController` -/

/-- C4 as stated fails: `MainController::initialize`, a phase hook that runs inside
`run()`, registers a platform event observer; shown on a fresh world. -/
theorem initialize_registers_observer :
    Call.register_platform_event_observer Observer.MainPlatformEventObserver ∈
      MainController.initialize.issued World.fresh ∧
    Call.registers_observer
      (Call.register_platform_event_observer Observer.MainPlatformEventObserver) = true := by
  simp [initialize_issued, Call.registers_observer]

/-- C4 (amended): of the phase hooks of MainController, `initialize` registers exactly
one platform event observer (the MainPlatformEventObserver) each time it runs, and
`loop`, `begin_draw`, `update`, `draw` and `end_draw` register none, for every
controller state and input state. -/
theorem observer_registered_only_by_initialize (S : Scene) (E : Engine) (i : Input)
    (w : World) :
    ( MainController.initialize.issued w).filter Call.registers_observer =
      [Call.register_platform_event_observer Observer.MainPlatformEventObserver] ∧
    (∀ c ∈ (MainController.loop i).issued w, c.registers_observer = false) ∧
    (∀ c ∈ MainController.begin_draw.issued w, c.registers_observer = false) ∧
    (∀ c ∈ (MainController.update E i).issued w, c.registers_observer = false) ∧
    (∀ c ∈ (MainController.draw S i).issued w, c.registers_observer = false) ∧
    (∀ c ∈ MainController.end_draw.issued w, c.registers_observer = false) := by
  refine ⟨?_, ?_, ?_, ?_, ?_, ?_⟩
  · rw [initialize_issued]
    rfl
  · simp [loop_issued]
  · simp [begin_draw_issued, Call.registers_observer]
  · exact fun c hc => ((update_camera_plain E i).issued w c hc).2
  · exact (draw_no_registration S i).issued w
  · simp [end_draw_issued, Call.registers_observer]

/-- C5 as stated fails: from a fresh (day) world, with the GUI disabled and key N just
pressed, one `update` already leaves `m_is_day` false, and records no request:
`m_day_change_requested` is still false and `m_day_change_timer` is untouched. -/
theorem day_flag_flips_without_delay :
    (Input.just_pressed KeyId.KEY_N).gui_enabled = false ∧
    ((Input.just_pressed KeyId.KEY_N).key KeyId.KEY_N).state = KeyState.JustPressed ∧
    World.fresh.main.m_is_day = true ∧
    ((MainController.update Engine.still (Input.just_pressed KeyId.KEY_N)).exec
      World.fresh).main.m_is_day = false ∧
    ((MainController.update Engine.still (Input.just_pressed KeyId.KEY_N)).exec
      World.fresh).main.m_day_change_requested = false ∧
    ((MainController.update Engine.still (Input.just_pressed KeyId.KEY_N)).exec
      World.fresh).main.m_day_change_timer = World.fresh.main.m_day_change_timer := by
  refine ⟨rfl, rfl, rfl, ?_, ?_, ?_⟩ <;>
    simp [MainController.update, update_camera_main, Input.just_pressed, World.fresh]

/-- C5 (amended): the Day/Night switch has no transition delay. When key N is just
pressed during `update` with the GUI disabled, that same update negates `m_is_day`;
`m_day_change_requested`, `m_day_change_timer` and `m_current_exposure` are left as
they were (no request is recorded and `DAY_CHANGE_DELAY` is not consulted). -/
theorem day_switch_is_immediate (E : Engine) (i : Input) (w : World)
    (hgui : i.gui_enabled = false)
    (hN : (i.key KeyId.KEY_N).state = KeyState.JustPressed) :
    ((MainController.update E i).exec w).main.m_is_day = !w.main.m_is_day ∧
    ((MainController.update E i).exec w).main.m_day_change_requested =
      w.main.m_day_change_requested ∧
    ((MainController.update E i).exec w).main.m_day_change_timer =
      w.main.m_day_change_timer ∧
    ((MainController.update E i).exec w).main.m_current_exposure =
      w.main.m_current_exposure := by
  simp [MainController.update, update_camera_main, hgui, hN]

/-- Witness for C5 (amended): key N just pressed on a fresh world. -/
theorem day_switch_is_immediate_witness :
    ((MainController.update Engine.still (Input.just_pressed KeyId.KEY_N)).exec
      World.fresh).main.m_is_day = !World.fresh.main.m_is_day :=
  (day_switch_is_immediate Engine.still (Input.just_pressed KeyId.KEY_N) World.fresh
    rfl rfl).1

/-- C6: `MainController::loop` returns false exactly when the ESCAPE key is down and
true otherwise, whatever the controller state and the other keys, and it changes
nothing (no field, no engine call). -/
theorem loop_stops_iff_escape_down (i : Input) (w : World) :
    ((MainController.loop i).result w = false ↔ (i.key KeyId.KEY_ESCAPE).is_down = true) ∧
    ((MainController.loop i).result w = true ↔ (i.key KeyId.KEY_ESCAPE).is_down = false) ∧
    (MainController.loop i).exec w = w := by
  refine ⟨?_, ?_, loop_exec i w⟩ <;>
    · unfold MainController.loop
      cases (i.key KeyId.KEY_ESCAPE).is_down <;> simp [Prog.result, pure]

/-- C7: `on_mouse_move` with the GUI enabled leaves the whole world, camera included,
unchanged and makes no call; with the GUI disabled it calls `rotate_camera` exactly
once, with exactly `(dx, dy)`, and changes nothing but the camera. -/
theorem on_mouse_move_checks_gui (E : Engine) (i : Input) (position : MousePosition)
    (w : World) :
    (MainPlatformEventObserver.on_mouse_move E i position).exec w =
      (if i.gui_enabled then w
       else { w with camera := E.rotate_camera position.dx position.dy w.camera
                     log := w.log ++ [Call.rotate_camera position.dx position.dy] }) ∧
    (MainPlatformEventObserver.on_mouse_move E i position).issued w =
      (if i.gui_enabled then []
       else [Call.rotate_camera position.dx position.dy]) := by
  exact ⟨on_mouse_move_exec E i position w, on_mouse_move_issued E i position w⟩

/-- C8: the hooks `initialize`, `loop`, `begin_draw`, `update` and `end_draw` (and the
mouse observer and `set_skybox`) issue no draw call in any state; `begin_draw` only
clears the buffers and `end_draw` only swaps them; in the call graph every caller of a
`draw_*` helper is `draw` or another `draw_*` helper, no `draw_*` helper is reachable
from an entry point other than `draw`, and each of them is reachable from `draw`. -/
theorem draw_calls_only_in_draw_phase (E : Engine) (i : Input) (w : World)
    (position : MousePosition) (new_skybox : String) (is_daytime_skybox : Bool) :
    (∀ c ∈ MainController.initialize.issued w, c.is_draw_call = false) ∧
    (MainController.loop i).issued w = [] ∧
    MainController.begin_draw.issued w = [Call.clear_buffers] ∧
    (∀ c ∈ (MainController.update E i).issued w, c.is_draw_call = false) ∧
    MainController.end_draw.issued w = [Call.swap_buffers] ∧
    (∀ c ∈ (MainPlatformEventObserver.on_mouse_move E i position).issued w,
      c.is_draw_call = false) ∧
    (∀ c ∈ (MainController.set_skybox new_skybox is_daytime_skybox).issued w,
      c.is_draw_call = false) ∧
    (∀ f ∈ Fn.all, ∀ g ∈ f.callees, g.is_draw_helper = true →
      f = Fn.draw ∨ f.is_draw_helper = true) ∧
    (∀ e ∈ Fn.entry_points_outside_draw, ∀ g ∈ Fn.reachable 4 e,
      g.is_draw_helper = false) ∧
    (∀ g ∈ Fn.all, g.is_draw_helper = true → g ∈ Fn.reachable 4 Fn.draw) := by
  refine ⟨?_, loop_issued i w, begin_draw_issued w, ?_, end_draw_issued w, ?_, ?_,
    by decide, by decide, by decide⟩
  · rw [initialize_issued]
    decide
  · exact fun c hc => ((update_camera_plain E i).issued w c hc).1
  · rw [on_mouse_move_issued E i position w]
    split <;> simp [Call.is_draw_call]
  · exact fun c hc => ((set_skybox_quiet new_skybox is_daytime_skybox).issued w c hc).1

/-- C10: with the GUI disabled, one `update` negates `m_is_day` when key N is in state
JustPressed and leaves it unchanged otherwise, in particular when N is in state
Pressed (held down); two updates that both see N JustPressed restore the original
`m_is_day`. -/
theorem day_night_toggle (E : Engine) (i₁ i₂ : Input) (w : World)
    (h₁ : i₁.gui_enabled = false) (h₂ : i₂.gui_enabled = false) :
    ((MainController.update E i₁).exec w).main.m_is_day =
      (if (i₁.key KeyId.KEY_N).state = KeyState.JustPressed then !w.main.m_is_day
       else w.main.m_is_day) ∧
    ((i₁.key KeyId.KEY_N).state = KeyState.Pressed →
      ((MainController.update E i₁).exec w).main.m_is_day = w.main.m_is_day) ∧
    ((i₁.key KeyId.KEY_N).state = KeyState.JustPressed →
      (i₂.key KeyId.KEY_N).state = KeyState.JustPressed →
      ((MainController.update E i₂).exec ((MainController.update E i₁).exec w)).main.m_is_day
        = w.main.m_is_day) := by
  refine ⟨?_, ?_, ?_⟩
  · by_cases hJ : (i₁.key KeyId.KEY_N).state = KeyState.JustPressed <;>
      simp [MainController.update, update_camera_main, h₁, hJ]
  · intro hP
    simp [MainController.update, update_camera_main, h₁, hP]
  · intro hJ₁ hJ₂
    simp [MainController.update, update_camera_main, h₁, h₂, hJ₁, hJ₂]

/-- Witness for C10: key N just pressed in two successive updates from a fresh world:
day becomes night, then day again. -/
theorem day_night_toggle_witness :
    ((MainController.update Engine.still (Input.just_pressed KeyId.KEY_N)).exec
      World.fresh).main.m_is_day = false ∧
    ((MainController.update Engine.still (Input.just_pressed KeyId.KEY_N)).exec
      ((MainController.update Engine.still (Input.just_pressed KeyId.KEY_N)).exec
        World.fresh)).main.m_is_day = true :=
  have h := day_night_toggle Engine.still (Input.just_pressed KeyId.KEY_N)
    (Input.just_pressed KeyId.KEY_N) World.fresh rfl rfl
  ⟨h.1, h.2.2 rfl rfl⟩

/-! ## Lighting, skybox, camera movement and instancing -/

theorem set_common_shader_variables_exec (shader : String) (w : World) :
    (MainController.set_common_shader_variables shader).exec w =
      { w with log := w.log ++
        [ Call.use shader,
          Call.set_vec3 shader "light.position"
            (if w.main.m_is_day then ⟨0.0, 60.0, 0.0⟩ else ⟨12.0, 25.0, 6.0⟩),
          Call.set_vec3 shader "light.ambient" (if w.main.m_is_day then vec3 0.2 else vec3 0.1),
          Call.set_vec3 shader "light.diffuse" (if w.main.m_is_day then vec3 0.5 else vec3 0.3),
          Call.set_vec3 shader "light.specular"
            (if w.main.m_is_day then vec3 0.1 else vec3 0.05),
          Call.set_vec3 shader "lightColor"
            (if w.main.m_is_day then ⟨1.0, 1.0, 1.0⟩ else ⟨1.0, 0.7, 0.1⟩),
          Call.set_float shader "material.shininess"
            (if w.main.m_is_day then 1024.0 else 2048.0),
          Call.set_vec3 shader "viewPos" w.camera.Position,
          Call.set_mat4 shader "projection" Mat4.projection_matrix,
          Call.set_mat4 shader "view" (Mat4.view_matrix w.camera) ] } := by
  simp only [MainController.set_common_shader_variables, exec_bind, exec_call, exec_world,
    result_world, List.append_assoc, List.singleton_append, List.cons_append, List.nil_append]

theorem set_common_shader_variables_issued (shader : String) (w : World) :
    (MainController.set_common_shader_variables shader).issued w =
      [ Call.use shader,
        Call.set_vec3 shader "light.position"
          (if w.main.m_is_day then ⟨0.0, 60.0, 0.0⟩ else ⟨12.0, 25.0, 6.0⟩),
        Call.set_vec3 shader "light.ambient" (if w.main.m_is_day then vec3 0.2 else vec3 0.1),
        Call.set_vec3 shader "light.diffuse" (if w.main.m_is_day then vec3 0.5 else vec3 0.3),
        Call.set_vec3 shader "light.specular"
          (if w.main.m_is_day then vec3 0.1 else vec3 0.05),
        Call.set_vec3 shader "lightColor"
          (if w.main.m_is_day then ⟨1.0, 1.0, 1.0⟩ else ⟨1.0, 0.7, 0.1⟩),
        Call.set_float shader "material.shininess"
          (if w.main.m_is_day then 1024.0 else 2048.0),
        Call.set_vec3 shader "viewPos" w.camera.Position,
        Call.set_mat4 shader "projection" Mat4.projection_matrix,
        Call.set_mat4 shader "view" (Mat4.view_matrix w.camera) ] := by
  apply issued_of_log
  rw [set_common_shader_variables_exec]

theorem draw_water_issued (i : Input) (w : World) :
    (MainController.draw_water i).issued w =
      [ Call.use "water_shader",
        Call.set_float "water_shader" "time" (i.getTime w.clock_reads),
        Call.set_vec3 "water_shader" "waterColor"
          (if w.main.m_is_day then ⟨0.0, 0.4, 0.6⟩ else ⟨0.0, 0.1, 0.3⟩),
        Call.set_vec3 "water_shader" "lightPos"
          (if w.main.m_is_day then ⟨0.0, 60.0, 0.0⟩ else ⟨12.0, 25.0, 6.0⟩),
        Call.set_vec3 "water_shader" "viewPos" w.camera.Position,
        Call.set_mat4 "water_shader" "projection" Mat4.projection_matrix,
        Call.set_mat4 "water_shader" "view" (Mat4.view_matrix w.camera),
        Call.set_mat4 "water_shader" "model"
          (Mat4.rotate (Mat4.translate (Mat4.scale Mat4.identity ⟨30, 1, 30⟩) ⟨0, 7, 0⟩)
            (-90.0) ⟨1, 0, 0⟩),
        Call.draw_blended "water" "water_shader" ] := by
  apply issued_of_log
  simp only [MainController.draw_water, getTime, exec_bind, exec_call, exec_world,
    result_world, result_bind, exec_update_world, exec_pure, result_pure,
    List.append_assoc, List.singleton_append, List.cons_append, List.nil_append]

/-- C11: the calls `set_common_shader_variables` makes are fixed by `m_is_day` (and, for
the last three, the camera): by day it sends light position (0, 60, 0), ambient 0.2,
diffuse 0.5, specular 0.1 (each in all three components), light colour (1, 1, 1),
shininess 1024; by night (12, 25, 6), 0.1, 0.3, 0.05, (1, 0.7, 0.1), 2048. The one
light position `draw_water` sends is the same value, for both values of `m_is_day`. -/
theorem lighting_chosen_by_day_flag (shader : String) (i : Input) (w : World) :
    (MainController.set_common_shader_variables shader).issued w =
      [ Call.use shader,
        Call.set_vec3 shader "light.position"
          (if w.main.m_is_day then ⟨0, 60, 0⟩ else ⟨12, 25, 6⟩),
        Call.set_vec3 shader "light.ambient"
          (if w.main.m_is_day then ⟨0.2, 0.2, 0.2⟩ else ⟨0.1, 0.1, 0.1⟩),
        Call.set_vec3 shader "light.diffuse"
          (if w.main.m_is_day then ⟨0.5, 0.5, 0.5⟩ else ⟨0.3, 0.3, 0.3⟩),
        Call.set_vec3 shader "light.specular"
          (if w.main.m_is_day then ⟨0.1, 0.1, 0.1⟩ else ⟨0.05, 0.05, 0.05⟩),
        Call.set_vec3 shader "lightColor"
          (if w.main.m_is_day then ⟨1, 1, 1⟩ else ⟨1, 0.7, 0.1⟩),
        Call.set_float shader "material.shininess" (if w.main.m_is_day then 1024 else 2048),
        Call.set_vec3 shader "viewPos" w.camera.Position,
        Call.set_mat4 shader "projection" Mat4.projection_matrix,
        Call.set_mat4 shader "view" (Mat4.view_matrix w.camera) ] ∧
    ((MainController.draw_water i).issued w).filterMap
        (Call.vec3_sent "water_shader" "lightPos") =
      [ if w.main.m_is_day then ⟨0, 60, 0⟩ else ⟨12, 25, 6⟩ ] ∧
    ((MainController.draw_water i).issued w).filterMap
        (Call.vec3_sent "water_shader" "lightPos") =
      ((MainController.set_common_shader_variables shader).issued w).filterMap
        (Call.vec3_sent shader "light.position") := by
  refine ⟨?_, ?_, ?_⟩
  · rw [set_common_shader_variables_issued]
    norm_num [vec3]
  · rw [draw_water_issued]
    simp only [Call.vec3_sent, List.filterMap_cons, List.filterMap_nil, and_self, if_true,
      true_and, String.reduceEq, if_false, and_false, false_and]
    norm_num
  · rw [draw_water_issued, set_common_shader_variables_issued]
    simp [Call.vec3_sent]

theorem set_skybox_exec (new_skybox : String) (is_daytime_skybox : Bool) (w : World) :
    (MainController.set_skybox new_skybox is_daytime_skybox).exec w =
      if is_daytime_skybox = w.main.m_is_day then
        (if is_daytime_skybox then
          { w with main := { w.main with active_daytime_skybox := new_skybox } }
         else { w with main := { w.main with active_nighttime_skybox := new_skybox } })
      else w := by
  unfold MainController.set_skybox
  cases is_daytime_skybox <;> cases h : w.main.m_is_day <;> simp [h]

theorem draw_skybox_issued (w : World) :
    MainController.draw_skybox.issued w =
      [ Call.draw_skybox "skybox"
          (if w.main.m_is_day then w.main.active_daytime_skybox
           else w.main.active_nighttime_skybox) ] :=
  issued_of_log _ w _ rfl

/-- C12: `set_skybox(name, is_daytime)` replaces the skybox of the active period only.
If `is_daytime` equals `m_is_day`, the name of that period becomes `name` and nothing else
changes, and `draw_skybox` then selects `name`; otherwise the whole state is unchanged and
`draw_skybox` selects what it selected before. In every case `m_is_day` is unchanged, and
so are the name of the period opposite to `is_daytime` and the name of the inactive
period. -/
theorem set_skybox_replaces_active_period (new_skybox : String) (is_daytime_skybox : Bool)
    (w : World) :
    (MainController.set_skybox new_skybox is_daytime_skybox).exec w =
      (if is_daytime_skybox = w.main.m_is_day then
        (if is_daytime_skybox then
          { w with main := { w.main with active_daytime_skybox := new_skybox } }
         else { w with main := { w.main with active_nighttime_skybox := new_skybox } })
       else w) ∧
    MainController.draw_skybox.issued
        ((MainController.set_skybox new_skybox is_daytime_skybox).exec w) =
      [ Call.draw_skybox "skybox"
          (if is_daytime_skybox = w.main.m_is_day then new_skybox
           else if w.main.m_is_day then w.main.active_daytime_skybox
           else w.main.active_nighttime_skybox) ] ∧
    ((MainController.set_skybox new_skybox is_daytime_skybox).exec w).main.m_is_day =
      w.main.m_is_day ∧
    (if is_daytime_skybox then
      ((MainController.set_skybox new_skybox is_daytime_skybox).exec w).main.active_nighttime_skybox
        = w.main.active_nighttime_skybox
     else
      ((MainController.set_skybox new_skybox is_daytime_skybox).exec w).main.active_daytime_skybox
        = w.main.active_daytime_skybox) ∧
    (if w.main.m_is_day then
      ((MainController.set_skybox new_skybox is_daytime_skybox).exec w).main.active_nighttime_skybox
        = w.main.active_nighttime_skybox
     else
      ((MainController.set_skybox new_skybox is_daytime_skybox).exec w).main.active_daytime_skybox
        = w.main.active_daytime_skybox) := by
  refine ⟨set_skybox_exec _ _ w, ?_, ?_, ?_, ?_⟩ <;>
    rw [set_skybox_exec] <;>
    cases is_daytime_skybox <;> cases h : w.main.m_is_day <;>
    simp [h, draw_skybox_issued]

theorem update_exec_gui_enabled (E : Engine) (i : Input) (w : World)
    (hgui : i.gui_enabled = true) : (MainController.update E i).exec w = w := by
  simp [MainController.update, MainController.update_camera, hgui]

/-- C13: while the GUI is enabled, `update` is the identity on the whole state, so
`m_is_day`, the camera (position, orientation, MovementSpeed) and the cursor flag are
unchanged, whatever the keys; it makes no call into the engine, in particular no camera
move and no rotate. -/
theorem update_is_identity_while_gui_enabled (E : Engine) (i : Input) (w : World)
    (hgui : i.gui_enabled = true) :
    (MainController.update E i).exec w = w ∧
    ((MainController.update E i).exec w).main.m_is_day = w.main.m_is_day ∧
    ((MainController.update E i).exec w).camera = w.camera ∧
    ((MainController.update E i).exec w).cursor_enabled = w.cursor_enabled ∧
    (MainController.update E i).issued w = [] := by
  have h := update_exec_gui_enabled E i w hgui
  refine ⟨h, by rw [h], by rw [h], by rw [h], ?_⟩
  apply issued_of_log
  rw [h, List.append_nil]

/-- Witness for C13: key N just pressed while the GUI is enabled, on a fresh world. -/
theorem update_is_identity_while_gui_enabled_witness :
    (Input.just_pressed KeyId.KEY_N).with_gui.gui_enabled = true ∧
    ((Input.just_pressed KeyId.KEY_N).with_gui.key KeyId.KEY_N).state = KeyState.JustPressed ∧
    (MainController.update Engine.still (Input.just_pressed KeyId.KEY_N).with_gui).exec
      World.fresh = World.fresh :=
  ⟨rfl, rfl,
    (update_is_identity_while_gui_enabled Engine.still
      (Input.just_pressed KeyId.KEY_N).with_gui World.fresh rfl).1⟩

/-! ## Lemmas on the steps of `update_camera` -/

theorem planar_step (E : Engine) (c sh : Bool) (d : Movement) (dt : Scalar) (X : World) :
    ((if c = true then do
        (if sh = true then set_MovementSpeed 20 else set_MovementSpeed 7)
        move_camera E d dt
      else pure ()).exec X).log = X.log ++ (if c then [Call.move_camera d dt] else []) ∧
    ((if c = true then do
        (if sh = true then set_MovementSpeed 20 else set_MovementSpeed 7)
        move_camera E d dt
      else pure ()).exec X).cursor_enabled = X.cursor_enabled := by
  cases c <;> cases sh <;> simp [move_camera, set_MovementSpeed]

theorem planar_step_speed (E : Engine)
    (hmove : ∀ d dt c, (E.move_camera d dt c).MovementSpeed = c.MovementSpeed)
    (c sh : Bool) (d : Movement) (dt : Scalar) (X : World) :
    ((if c = true then do
        (if sh = true then set_MovementSpeed 20 else set_MovementSpeed 7)
        move_camera E d dt
      else pure ()).exec X).camera.MovementSpeed =
      if c then (if sh then 20 else 7) else X.camera.MovementSpeed := by
  cases c <;> cases sh <;> simp [move_camera, set_MovementSpeed, hmove]

theorem vertical_step (E : Engine) (c sh : Bool) (dt : Scalar) (X : World) :
    ((if c = true then
        (if sh = true then move_camera E Movement.DOWN dt else move_camera E Movement.UP dt)
      else pure ()).exec X).log = X.log ++
        (if c then [Call.move_camera (if sh then Movement.DOWN else Movement.UP) dt] else []) ∧
    ((if c = true then
        (if sh = true then move_camera E Movement.DOWN dt else move_camera E Movement.UP dt)
      else pure ()).exec X).cursor_enabled = X.cursor_enabled := by
  cases c <;> cases sh <;> simp [move_camera]

theorem vertical_step_speed (E : Engine)
    (hmove : ∀ d dt c, (E.move_camera d dt c).MovementSpeed = c.MovementSpeed)
    (c sh : Bool) (dt : Scalar) (X : World) :
    ((if c = true then
        (if sh = true then move_camera E Movement.DOWN dt else move_camera E Movement.UP dt)
      else pure ()).exec X).camera.MovementSpeed = X.camera.MovementSpeed := by
  cases c <;> cases sh <;> simp [move_camera, hmove]

theorem cursor_step (st : KeyState) (X : World) :
    ((if st = KeyState.JustPressed then do
        let enabled ← is_cursor_enabled
        set_enable_cursor (!enabled)
      else pure ()).exec X).log = X.log ++
        (if st = KeyState.JustPressed then [Call.set_enable_cursor (!X.cursor_enabled)] else []) ∧
    ((if st = KeyState.JustPressed then do
        let enabled ← is_cursor_enabled
        set_enable_cursor (!enabled)
      else pure ()).exec X).camera = X.camera := by
  by_cases h : st = KeyState.JustPressed <;> simp [h, is_cursor_enabled, set_enable_cursor]

theorem day_step (st : KeyState) (X : World) :
    ((if st = KeyState.JustPressed then
        update_world fun w => { w with main := { w.main with m_is_day := !w.main.m_is_day } }
      else pure ()).exec X).log = X.log ∧
    ((if st = KeyState.JustPressed then
        update_world fun w => { w with main := { w.main with m_is_day := !w.main.m_is_day } }
      else pure ()).exec X).camera = X.camera := by
  by_cases h : st = KeyState.JustPressed <;> simp [h]

theorem rotate_step (E : Engine) (c : Bool) (dx dy : Scalar) (X : World) :
    ((if c = true then rotate_camera E dx dy else pure ()).exec X).log =
      X.log ++ (if c then [Call.rotate_camera dx dy] else []) := by
  cases c <;> simp [rotate_camera]

theorem rotate_step_speed (E : Engine)
    (hrot : ∀ dx dy c, (E.rotate_camera dx dy c).MovementSpeed = c.MovementSpeed)
    (c : Bool) (dx dy : Scalar) (X : World) :
    ((if c = true then rotate_camera E dx dy else pure ()).exec X).camera.MovementSpeed =
      X.camera.MovementSpeed := by
  cases c <;> simp [rotate_camera, hrot]

theorem update_camera_issued (E : Engine) (i : Input) (w : World)
    (hgui : i.gui_enabled = false) :
    (MainController.update_camera E i).issued w =
      (if (i.key KeyId.KEY_W).is_down || (i.key KeyId.KEY_UP).is_down
          then [Call.move_camera Movement.FORWARD i.dt] else []) ++
       ((if (i.key KeyId.KEY_S).is_down || (i.key KeyId.KEY_DOWN).is_down
          then [Call.move_camera Movement.BACKWARD i.dt] else []) ++
       ((if (i.key KeyId.KEY_A).is_down || (i.key KeyId.KEY_LEFT).is_down
          then [Call.move_camera Movement.LEFT i.dt] else []) ++
       ((if (i.key KeyId.KEY_D).is_down || (i.key KeyId.KEY_RIGHT).is_down
          then [Call.move_camera Movement.RIGHT i.dt] else []) ++
       ((if (i.key KeyId.KEY_SPACE).is_down
          then [Call.move_camera
            (if (i.key KeyId.KEY_LEFT_SHIFT).is_down then Movement.DOWN else Movement.UP) i.dt]
          else []) ++
       ((if (i.key KeyId.KEY_P).state = KeyState.JustPressed
          then [Call.set_enable_cursor (!w.cursor_enabled)] else []) ++
       ((if (i.key KeyId.KEY_Q).is_down then [Call.rotate_camera (-10) 0] else []) ++
        (if (i.key KeyId.KEY_E).is_down then [Call.rotate_camera 10 0] else []))))))) := by
  apply issued_of_log
  simp only [MainController.update_camera, hgui, Bool.false_eq_true, if_false, exec_bind,
    planar_step, vertical_step, cursor_step, day_step, rotate_step, List.append_assoc]

theorem update_camera_speed (E : Engine) (i : Input) (w : World) (hgui : i.gui_enabled = false)
    (hmove : ∀ d dt c, (E.move_camera d dt c).MovementSpeed = c.MovementSpeed)
    (hrot : ∀ dx dy c, (E.rotate_camera dx dy c).MovementSpeed = c.MovementSpeed) :
    ((MainController.update_camera E i).exec w).camera.MovementSpeed =
      if ((i.key KeyId.KEY_W).is_down || (i.key KeyId.KEY_UP).is_down ||
          (i.key KeyId.KEY_S).is_down || (i.key KeyId.KEY_DOWN).is_down ||
          (i.key KeyId.KEY_A).is_down || (i.key KeyId.KEY_LEFT).is_down ||
          (i.key KeyId.KEY_D).is_down || (i.key KeyId.KEY_RIGHT).is_down) = true
      then (if (i.key KeyId.KEY_LEFT_SHIFT).is_down then 20 else 7)
      else w.camera.MovementSpeed := by
  simp only [MainController.update_camera, hgui, Bool.false_eq_true, if_false, exec_bind,
    planar_step_speed E hmove, vertical_step_speed E hmove, cursor_step, day_step,
    rotate_step_speed E hrot]
  cases (i.key KeyId.KEY_W).is_down <;> cases (i.key KeyId.KEY_UP).is_down <;>
    cases (i.key KeyId.KEY_S).is_down <;> cases (i.key KeyId.KEY_DOWN).is_down <;>
    cases (i.key KeyId.KEY_A).is_down <;> cases (i.key KeyId.KEY_LEFT).is_down <;>
    cases (i.key KeyId.KEY_D).is_down <;> cases (i.key KeyId.KEY_RIGHT).is_down <;> simp

/-- C14: with the GUI disabled, the camera moves one `update` issues are the
subsequence of FORWARD, BACKWARD, LEFT, RIGHT, vertical selected by (W or UP), (S or
DOWN), (A or LEFT), (D or RIGHT), SPACE, in that order and each at most once, each with
the frame's `dt`; the vertical move is DOWN if LEFT_SHIFT is down and UP otherwise. If
the camera methods of the engine leave `MovementSpeed` alone, then after the update
`MovementSpeed` is 20 (LEFT_SHIFT down) or 7 (otherwise) when one of the eight planar
movement keys is down, and is unchanged when none is, SPACE or not. -/
theorem update_moves_and_speed (E : Engine) (i : Input) (w : World)
    (hgui : i.gui_enabled = false) :
    ((MainController.update E i).issued w).filter Call.is_move =
      (if (i.key KeyId.KEY_W).is_down || (i.key KeyId.KEY_UP).is_down
          then [Call.move_camera Movement.FORWARD i.dt] else []) ++
      (if (i.key KeyId.KEY_S).is_down || (i.key KeyId.KEY_DOWN).is_down
          then [Call.move_camera Movement.BACKWARD i.dt] else []) ++
      (if (i.key KeyId.KEY_A).is_down || (i.key KeyId.KEY_LEFT).is_down
          then [Call.move_camera Movement.LEFT i.dt] else []) ++
      (if (i.key KeyId.KEY_D).is_down || (i.key KeyId.KEY_RIGHT).is_down
          then [Call.move_camera Movement.RIGHT i.dt] else []) ++
      (if (i.key KeyId.KEY_SPACE).is_down
          then [Call.move_camera
            (if (i.key KeyId.KEY_LEFT_SHIFT).is_down then Movement.DOWN else Movement.UP) i.dt]
          else []) ∧
    ((∀ d dt c, (E.move_camera d dt c).MovementSpeed = c.MovementSpeed) →
     (∀ dx dy c, (E.rotate_camera dx dy c).MovementSpeed = c.MovementSpeed) →
      ((MainController.update E i).exec w).camera.MovementSpeed =
        (if ((i.key KeyId.KEY_W).is_down || (i.key KeyId.KEY_UP).is_down ||
             (i.key KeyId.KEY_S).is_down || (i.key KeyId.KEY_DOWN).is_down ||
             (i.key KeyId.KEY_A).is_down || (i.key KeyId.KEY_LEFT).is_down ||
             (i.key KeyId.KEY_D).is_down || (i.key KeyId.KEY_RIGHT).is_down) = true
         then (if (i.key KeyId.KEY_LEFT_SHIFT).is_down then 20 else 7)
         else w.camera.MovementSpeed)) := by
  refine ⟨?_, fun hmove hrot => update_camera_speed E i w hgui hmove hrot⟩
  show ((MainController.update_camera E i).issued w).filter Call.is_move = _
  rw [update_camera_issued E i w hgui]
  simp only [List.filter_append, List.append_assoc]
  cases (i.key KeyId.KEY_W).is_down || (i.key KeyId.KEY_UP).is_down <;>
    cases (i.key KeyId.KEY_S).is_down || (i.key KeyId.KEY_DOWN).is_down <;>
    cases (i.key KeyId.KEY_A).is_down || (i.key KeyId.KEY_LEFT).is_down <;>
    cases (i.key KeyId.KEY_D).is_down || (i.key KeyId.KEY_RIGHT).is_down <;>
    cases (i.key KeyId.KEY_SPACE).is_down <;>
    cases (i.key KeyId.KEY_Q).is_down <;> cases (i.key KeyId.KEY_E).is_down <;>
    by_cases hP : (i.key KeyId.KEY_P).state = KeyState.JustPressed <;>
    simp [hP, Call.is_move]

/-- Witness for C14: W, LEFT_SHIFT and SPACE held on a fresh world, with an engine whose
camera methods leave the camera alone: the moves are FORWARD then DOWN, the speed 20. -/
theorem update_moves_and_speed_witness :
    ((MainController.update Engine.still
        (Input.holding [KeyId.KEY_W, KeyId.KEY_LEFT_SHIFT, KeyId.KEY_SPACE])).issued
        World.fresh).filter Call.is_move =
      [ Call.move_camera Movement.FORWARD (1 / 60), Call.move_camera Movement.DOWN (1 / 60) ] ∧
    ((MainController.update Engine.still
        (Input.holding [KeyId.KEY_W, KeyId.KEY_LEFT_SHIFT, KeyId.KEY_SPACE])).exec
        World.fresh).camera.MovementSpeed = 20 := by
  have h := update_moves_and_speed Engine.still
    (Input.holding [KeyId.KEY_W, KeyId.KEY_LEFT_SHIFT, KeyId.KEY_SPACE]) World.fresh rfl
  have h₂ := h.2 (fun _ _ _ => rfl) (fun _ _ _ => rfl)
  exact ⟨by simpa [Input.holding] using h.1, by simpa [Input.holding] using h₂⟩

theorem draw_white_flowers_issued (S : Scene) (w : World) :
    (MainController.draw_white_flowers S).issued w =
      (MainController.set_common_shader_variables "flower_shader").issued w ++
      [ Call.set_vec3 "flower_shader" "light.ambient"
          (if w.main.m_is_day then vec3 0.2 else vec3 0.05),
        Call.set_vec3 "flower_shader" "light.diffuse"
          (if w.main.m_is_day then vec3 0.5 else vec3 0.1),
        Call.draw_instanced "flowers2" "flower_shader" (2 * 10 + S.white_flowers.length)
          (((List.range 2).flatMap fun row =>
              (List.range 10).map fun col =>
                Mat4.scale
                  (Mat4.rotate
                    (Mat4.translate Mat4.identity
                      ⟨if row = 0 then 40.0 else 44.0, 17.4, 4.0 * (col : Scalar) - 16⟩)
                    90.0 ⟨1, 0, 0⟩)
                  (vec3 0.12)) ++
            S.white_flowers.map fun translation =>
              Mat4.scale
                (Mat4.translate (Mat4.rotate Mat4.identity 90.0 ⟨1, 0, 0⟩) translation)
                (vec3 0.12)) ] := by
  apply issued_of_log
  rw [set_common_shader_variables_issued]
  simp only [MainController.draw_white_flowers, exec_bind, exec_call, exec_world,
    result_world, result_bind, set_common_shader_variables_exec, List.append_assoc,
    List.singleton_append, List.cons_append, List.nil_append]

theorem draw_red_flowers_issued (S : Scene) (w : World) :
    (MainController.draw_red_flowers S).issued w =
      (MainController.set_common_shader_variables "flower_shader").issued w ++
      [ Call.set_vec3 "flower_shader" "light.ambient"
          (if w.main.m_is_day then vec3 0.2 else vec3 0.05),
        Call.set_vec3 "flower_shader" "light.diffuse"
          (if w.main.m_is_day then vec3 0.5 else vec3 0.1),
        Call.draw_instanced "roses" "flower_shader"
          (S.red_flowers.map fun translation =>
              Mat4.scale
                (Mat4.translate (Mat4.rotate Mat4.identity (-90.0) ⟨1, 0, 0⟩) translation)
                (vec3 0.04)).length
          (S.red_flowers.map fun translation =>
              Mat4.scale
                (Mat4.translate (Mat4.rotate Mat4.identity (-90.0) ⟨1, 0, 0⟩) translation)
                (vec3 0.04)) ] := by
  apply issued_of_log
  rw [set_common_shader_variables_issued]
  simp only [MainController.draw_red_flowers, exec_bind, exec_call, exec_world,
    result_world, result_bind, set_common_shader_variables_exec, List.append_assoc,
    List.singleton_append, List.cons_append, List.nil_append]

/-- C15: the instance count passed to `draw_instanced` equals the number of matrices
built. For a translation table of length `n`, `draw_white_flowers` issues one draw call,
`draw_instanced` with amount `20 + n` and a buffer of `20 + n` matrices: first the
2 by 10 grid (entry `10 * row + col` translated to x = 40 in row 0 and x = 44 in row 1,
z = 4 col - 16), then one matrix per translation. `draw_red_flowers` issues one draw
call, with amount `n` and a buffer of `n` matrices, one per translation. In both the
amount is the buffer length, so no instance index lies past the end of the buffer. -/
theorem flower_instance_count_matches_matrices (S : Scene) (w : World) :
    ∃ white red : List Mat4,
      ((MainController.draw_white_flowers S).issued w).filter Call.is_draw_call =
        [Call.draw_instanced "flowers2" "flower_shader" (20 + S.white_flowers.length) white] ∧
      white.length = 20 + S.white_flowers.length ∧
      (∀ row col : Nat, row < 2 → col < 10 →
        white[10 * row + col]? = some
          (Mat4.scale
            (Mat4.rotate
              (Mat4.translate Mat4.identity
                ⟨if row = 0 then 40 else 44, 17.4, 4 * (col : Scalar) - 16⟩)
              90 ⟨1, 0, 0⟩)
            (vec3 0.12))) ∧
      white.drop 20 = S.white_flowers.map (fun translation =>
        Mat4.scale (Mat4.translate (Mat4.rotate Mat4.identity 90 ⟨1, 0, 0⟩) translation)
          (vec3 0.12)) ∧
      ((MainController.draw_red_flowers S).issued w).filter Call.is_draw_call =
        [Call.draw_instanced "roses" "flower_shader" S.red_flowers.length red] ∧
      red.length = S.red_flowers.length ∧
      red = S.red_flowers.map (fun translation =>
        Mat4.scale (Mat4.translate (Mat4.rotate Mat4.identity (-90) ⟨1, 0, 0⟩) translation)
          (vec3 0.04)) := by
  refine ⟨((List.range 2).flatMap fun row =>
              (List.range 10).map fun col =>
                Mat4.scale
                  (Mat4.rotate
                    (Mat4.translate Mat4.identity
                      ⟨if row = 0 then 40.0 else 44.0, 17.4, 4.0 * (col : Scalar) - 16⟩)
                    90.0 ⟨1, 0, 0⟩)
                  (vec3 0.12)) ++
            S.white_flowers.map fun translation =>
              Mat4.scale
                (Mat4.translate (Mat4.rotate Mat4.identity 90.0 ⟨1, 0, 0⟩) translation)
                (vec3 0.12),
    S.red_flowers.map fun translation =>
              Mat4.scale
                (Mat4.translate (Mat4.rotate Mat4.identity (-90.0) ⟨1, 0, 0⟩) translation)
                (vec3 0.04), ?_, ?_, ?_, ?_, ?_, ?_, ?_⟩
  · rw [draw_white_flowers_issued, set_common_shader_variables_issued]
    simp only [List.filter_append, List.filter_cons, List.filter_nil, Call.is_draw_call,
      Bool.false_eq_true, if_false, if_true, List.nil_append]
  · rw [List.length_append, List.length_map]
    rfl
  · intro row col hr hc
    interval_cases row <;> interval_cases col <;> norm_num [List.range_succ, List.flatMap]
  · rw [List.drop_left' (by rfl)]
    norm_num
  · rw [draw_red_flowers_issued, set_common_shader_variables_issued]
    simp only [List.filter_append, List.filter_cons, List.filter_nil, Call.is_draw_call,
      Bool.false_eq_true, if_false, if_true, List.nil_append, List.length_map]
  · rw [List.length_map]
  · norm_num

end app
